import Mathlib

/-!
# Two-image panorama stitcher (`src/main.cpp`): embedding and verified properties

The program reads a configuration, loads two images, detects and matches
features, filters the matches, estimates a homography, plans a canvas, warps,
finds a seam and blends.  Everything OpenCV does to pixels is an external
library call; the program's own logic is the string-dispatched factories, the
match filter, the gates on counts, the canvas arithmetic and the order of the
calls.  That logic is embedded here.

Conventions of the embedding.

* A `float` or `double` value is the rational number it denotes (finite values
  only).  Operations that are exact on finite floats (`std::min`, `std::max`,
  unary minus, `std::ceil`, `float` to `double`) are the exact rational
  operations.  The operations of `main` that round to `float` (the product in
  the ratio test, the conversions `(float)cols`, the subtraction
  `max_x - min_x`) go through a rounding function `fl : ℚ → ℚ`, a parameter of
  the definitions.  The arithmetic of the program is `fl = roundF32`, IEEE 754
  single precision with round-to-nearest-even; exact arithmetic is `fl = id`.
  Both are monotone, and `roundF32` fixes every integer of magnitude at most
  `2^24` (`roundF32_monotone`, `roundF32_intCast`).
* `int` values are integers.  The conversion `(int)x` truncates toward zero; C++
  leaves it undefined when the truncated value does not fit an `int`, and the
  embedding covers the defined case.
* A library call is a field of `World`: an uninterpreted function from the
  arguments `main` passes to the result `main` receives.  `cv::resize` and
  `fs::create_directory` may throw; `cv::findHomography` may yield an empty
  matrix, on which `cv::perspectiveTransform` throws; taking a rectangle of a
  matrix throws when the rectangle is not inside it; the seam finder may throw
  after writing to the masks it was handed.  The other calls are taken to return.
* `main` returns its exit status together with the sequence of library calls and
  error messages it performed (`Event`).
-/

namespace Stitch

/-! ## Data -/

/-- The `cv::Point2f` of the source: a point with `float` coordinates. -/
structure Point2f where
  x : ℚ
  y : ℚ
deriving DecidableEq, Inhabited

/-- The `cv::DMatch` of the source: query index, train index, descriptor distance. -/
structure DMatch where
  queryIdx : ℤ
  trainIdx : ℤ
  distance : ℚ
deriving DecidableEq, Inhabited

/-- The `cv::KeyPoint` of the source; `main` reads only its position `pt`. -/
structure KeyPoint where
  pt : Point2f
deriving DecidableEq, Inhabited

/-- The `cv::Mat` of the source as a pixel buffer: extent and row-major payload. -/
structure Mat where
  rows : ℤ
  cols : ℤ
  data : List ℕ
deriving DecidableEq, Inhabited

/-- The `cv::Mat::empty` of the library: no elements. -/
def Mat.empty (m : Mat) : Bool := decide (m.rows * m.cols = 0)

/-- The `cv::Rect` of the source: top-left corner, width, height. -/
structure Rect where
  x : ℤ
  y : ℤ
  width : ℤ
  height : ℤ
deriving DecidableEq, Inhabited

/-- A 3×3 matrix of doubles (`cv::Mat_<double>(3, 3)`): homographies and translations. -/
abbrev Mat33 := Matrix (Fin 3) (Fin 3) ℚ

/-! ## Factories (`makeDetector`, `makeMatcher`) -/

/-- What `makeDetector` creates: `cv::SIFT::create()`, `cv::ORB::create(nfeatures)`,
`cv::AKAZE::create()`. -/
inductive Detector where
  | SIFT
  | ORB (nfeatures : ℤ)
  | AKAZE
deriving DecidableEq, Inhabited

/-- The norm handed to `cv::BFMatcher::create`. -/
inductive NormType where
  | NORM_HAMMING
deriving DecidableEq, Inhabited

/-- What `makeMatcher` creates: `cv::FlannBasedMatcher::create()` or
`cv::BFMatcher::create(norm)`. -/
inductive Matcher where
  | FlannBased
  | BF (norm : NormType)
deriving DecidableEq, Inhabited

/-- The factory `makeDetector` of the source (lines 16-21); the `throw` of a
`std::runtime_error` is the `error` result carrying the message. -/
def makeDetector (name : String) (nfeatures : ℤ) : Except String Detector :=
  if name = "SIFT" then .ok Detector.SIFT
  else if name = "ORB" then .ok (Detector.ORB nfeatures)
  else if name = "AKAZE" then .ok Detector.AKAZE
  else .error ("Unknown detector: " ++ name)

/-- The factory `makeMatcher` of the source (lines 24-29). -/
def makeMatcher (detector_name : String) : Except String Matcher :=
  if detector_name = "SIFT" then .ok Matcher.FlannBased
  else if detector_name = "ORB" ∨ detector_name = "AKAZE" then
    .ok (Matcher.BF NormType.NORM_HAMMING)
  else .error ("Unknown detector: " ++ detector_name)

/-! ## Match filter (lines 137-146) -/

/-- The loop of the enabled ratio test (lines 139-141): `good_matches` starts empty
and receives `mvec[0]` by `push_back` for every `mvec` with
`mvec.size() >= 2 && mvec[0].distance < ratio_thresh * mvec[1].distance`; the
product is a `float` product, hence rounded by `fl`. -/
def ratioLoop (fl : ℚ → ℚ) (ratio_thresh : ℚ) (knn_matches : List (List DMatch)) :
    List DMatch :=
  knn_matches.foldl (fun good_matches mvec =>
    if mvec.length ≥ 2 ∧
        (mvec.getD 0 default).distance < fl (ratio_thresh * (mvec.getD 1 default).distance) then
      good_matches ++ [mvec.getD 0 default]
    else good_matches) []

/-- The loop of the disabled ratio test (lines 144-145): `mvec[0]` of every
non-empty `mvec`. -/
def bestLoop (knn_matches : List (List DMatch)) : List DMatch :=
  knn_matches.foldl (fun good_matches mvec =>
    if ¬ mvec.isEmpty then good_matches ++ [mvec.getD 0 default] else good_matches) []

/-- The value of `good_matches` after lines 137-146. -/
def good_matches (fl : ℚ → ℚ) (use_ratio_test : Bool) (ratio_thresh : ℚ)
    (knn_matches : List (List DMatch)) : List DMatch :=
  if use_ratio_test then ratioLoop fl ratio_thresh knn_matches else bestLoop knn_matches

/-- The choice the specification makes for one entry of `knn_matches`: with the
ratio test, the best candidate when there are a best and a second-best one with
`best.distance < ratio_thresh * second.distance`; without it, the best candidate
when there is one. -/
def specPick (fl : ℚ → ℚ) (use_ratio_test : Bool) (ratio_thresh : ℚ) (entry : List DMatch) :
    Option DMatch :=
  match use_ratio_test, entry with
  | true, best :: second :: _ =>
      if best.distance < fl (ratio_thresh * second.distance) then some best else none
  | true, _ => none
  | false, best :: _ => some best
  | false, [] => none

/-- The filter as the specification words it: the accepted candidates of the
entries, in query order. -/
def specFilter (fl : ℚ → ℚ) (use_ratio_test : Bool) (ratio_thresh : ℚ)
    (knn_matches : List (List DMatch)) : List DMatch :=
  knn_matches.filterMap (specPick fl use_ratio_test ratio_thresh)

/-! ## Canvas planning (lines 219-248) -/

/-- The largest finite `float`, `FLT_MAX` = (2^24 - 1) * 2^104. -/
def FLT_MAX : ℚ := (2 ^ 24 - 1) * 2 ^ 104

/-- The conversion `(int)x` of a `float`: truncation toward zero. -/
def toInt (q : ℚ) : ℤ := if 0 ≤ q then ⌊q⌋ else ⌈q⌉

/-- The four corners `{0,0}, {(float)cols,0}, {(float)cols,(float)rows},
{0,(float)rows}` of an image extent (lines 219 and 223). -/
def imageCorners (fl : ℚ → ℚ) (cols rows : ℤ) : List Point2f :=
  [⟨0, 0⟩, ⟨fl cols, 0⟩, ⟨fl cols, fl rows⟩, ⟨0, fl rows⟩]

/-- The list `all_corners` (lines 223-224): the corners of image 1 followed by the
warped corners of image 2. -/
def all_corners (fl : ℚ → ℚ) (cols rows : ℤ) (corners2_warped : List Point2f) :
    List Point2f :=
  imageCorners fl cols rows ++ corners2_warped

/-- The four running extrema of lines 226-232. -/
structure BBox where
  min_x : ℚ
  min_y : ℚ
  max_x : ℚ
  max_y : ℚ
deriving DecidableEq, Inhabited

/-- The body of the loop of lines 227-232 for one corner `p`. -/
def BBox.extend (b : BBox) (p : Point2f) : BBox :=
  { min_x := min b.min_x p.x, min_y := min b.min_y p.y,
    max_x := max b.max_x p.x, max_y := max b.max_y p.y }

/-- The loop of lines 226-232, started at `FLT_MAX` and `-FLT_MAX`. -/
def boundingBox (all_corners : List Point2f) : BBox :=
  all_corners.foldl BBox.extend
    { min_x := FLT_MAX, min_y := FLT_MAX, max_x := -FLT_MAX, max_y := -FLT_MAX }

/-- The matrix `translation` of line 234. -/
def translation (b : BBox) : Mat33 :=
  !![1, 0, -b.min_x; 0, 1, -b.min_y; 0, 0, 1]

/-- The width `pano_w = (int)std::ceil(max_x - min_x)` of line 237. -/
def pano_w (fl : ℚ → ℚ) (b : BBox) : ℤ := toInt (⌈fl (b.max_x - b.min_x)⌉ : ℤ)

/-- The height `pano_h = (int)std::ceil(max_y - min_y)` of line 238. -/
def pano_h (fl : ℚ → ℚ) (b : BBox) : ℤ := toInt (⌈fl (b.max_y - b.min_y)⌉ : ℤ)

/-- The rectangle `cv::Rect((int)-min_x, (int)-min_y, img1.cols, img1.rows)` of lines
242 and 247, where image 1 is copied and `mask1` is set to 255. -/
def placement (b : BBox) (cols rows : ℤ) : Rect :=
  { x := toInt (-b.min_x), y := toInt (-b.min_y), width := cols, height := rows }

/-- A point after the translation by `(-min_x, -min_y)`. -/
def translate (b : BBox) (p : Point2f) : Point2f :=
  { x := p.x - b.min_x, y := p.y - b.min_y }

/-! ## Single precision -/

/-- The integer nearest to `x`, the even one of the two when `x` lies half-way. -/
def roundHalfEven (x : ℚ) : ℤ :=
  if x - ⌊x⌋ < 1 / 2 then ⌊x⌋
  else if 1 / 2 < x - ⌊x⌋ then ⌊x⌋ + 1
  else if ⌊x⌋ % 2 = 0 then ⌊x⌋ else ⌊x⌋ + 1

/-- The spacing of the single-precision floats around `q`: `2 ^ (e - 23)` for
`2 ^ e ≤ |q| < 2 ^ (e + 1)` (24 significant bits), and `2 ^ (-149)` below the
smallest normal number `2 ^ (-126)`. -/
def ulp32 (q : ℚ) : ℚ := 2 ^ (max (Int.log 2 |q|) (-126) - 23)

/-- The conversion of a real number to `float`: IEEE 754 single precision,
round to nearest, ties to even.  Results beyond `FLT_MAX` stand for infinity and
are outside the finite values the embedding covers. -/
def roundF32 (q : ℚ) : ℚ := roundHalfEven (q / ulp32 q) * ulp32 q

/-! ## The run (`main`, from line 83 on) -/

/-- The configuration `main` has collected from its prompts by line 83. -/
structure Config where
  left_path : String
  right_path : String
  detector_name : String
  scale : ℚ
  use_ratio_test : Bool
  ratio_thresh : ℚ
  ransac_reproj_thresh : ℚ
deriving DecidableEq, Inhabited

/-- How the call `seam_finder->find(imgs_um, corners, masks_um)` ends: it returns,
or it throws one of the three kinds of exception `main` catches.  The vector
`masks_um` is passed by reference, so in every case the call leaves it in some
state, recorded here. -/
inductive SeamResult where
  | returned (masks_um : List Mat)
  | cvException (what : String) (masks_um : List Mat)
  | stdException (what : String) (masks_um : List Mat)
  | unknownException (masks_um : List Mat)
deriving DecidableEq, Inhabited

/-- The state of `masks_um` after the call. -/
def SeamResult.masks_um (r : SeamResult) : List Mat :=
  match r with
  | .returned m => m
  | .cvException _ m => m
  | .stdException _ m => m
  | .unknownException m => m

/-- The library calls of `main`, each a function from the arguments `main` passes
to the result it receives.  `resize` and `create_directory` return or throw
(`error` carries the message of the exception).  `findHomography` yields the
matrix `H`, `none` for the empty matrix, and `inliers_mask`. -/
structure World where
  imread : String → Mat
  resize : Mat → ℚ → Except String Mat
  stored_folder_exists : Bool
  create_directory : Except String Unit
  detectAndCompute : Detector → Mat → List KeyPoint × Mat
  knnMatch : Matcher → Mat → Mat → List (List DMatch)
  findHomography : List Point2f → List Point2f → ℚ → Option Mat33 × List ℕ
  perspectiveTransform : List Point2f → Mat33 → List Point2f
  copyTo : Mat → ℤ → ℤ → Rect → Mat
  warpPerspective : Mat → Mat33 → ℤ → ℤ → Mat
  setTo : ℤ → ℤ → Rect → ℕ → Mat
  cvtColor : Mat → Mat
  threshold : Mat → Mat
  seamFind : List Mat → List (ℤ × ℤ) → List Mat → SeamResult
  blend : Rect → List (Mat × Mat × (ℤ × ℤ)) → Mat

/-- What a run does that is visible from outside, in order: the library calls, what
is written to `std::cerr`, and the report of the inlier count on `std::cout`
(line 169).  The other progress messages on `std::cout`, the drawing of the
statistics text and the choice of file names are left out. -/
inductive Event where
  | imread (path : String)
  | resize
  | create_directory
  | cerr (msg : String)
  | detectAndCompute
  | knnMatch
  | findHomography
  | cout_inliers (num_inliers total : ℕ)
  | drawMatches
  | perspectiveTransform
  | copyTo (roi : Rect)
  | warpPerspective (H_translated : Mat33) (pano_w pano_h : ℤ)
  | seamFind
  | blender_prepare (dst_roi : Rect)
  | blender_feed (img mask : Mat) (tl : ℤ × ℤ)
  | blender_blend
  | imwrite (img : Mat)
  | imwrite_stats
  | imshow
deriving DecidableEq

/-- The call whose exception ended a run: nothing in `main` catches an exception of
`cv::resize`, `fs::create_directory`, `makeMatcher`, `cv::perspectiveTransform` or
of taking the rectangle of image 1 out of the canvas (`cv::Mat::operator()`). -/
inductive Thrower where
  | resize
  | create_directory
  | makeMatcher
  | perspectiveTransform
  | roi
deriving DecidableEq, Inhabited

/-- How a run ends: `return code`, or `std::terminate` on an exception nothing
catches. -/
inductive Exit where
  | returned (code : ℤ)
  | terminate (thrower : Thrower) (what : String)
deriving DecidableEq, Inhabited

/-- A finished run. -/
structure Run where
  trace : List Event
  exit : Exit
deriving DecidableEq

/-- An image after lines 107-110: resized unless `scale` is 1; the resize may
throw. -/
def scaled (cfg : Config) (w : World) (img : Mat) : Except String Mat :=
  if cfg.scale ≠ 1 then w.resize img cfg.scale else .ok img

/-- Lines 113-114: the output folder is created unless it exists; the creation may
throw. -/
def ensureFolder (w : World) : Except String Unit :=
  if ¬ w.stored_folder_exists then w.create_directory else .ok ()

/-- The events of lines 107-110 when both resizes returned. -/
def resizeEvents (cfg : Config) : List Event :=
  if cfg.scale ≠ 1 then [.resize, .resize] else []

/-- The events of lines 107-114 when every call returned: the two resizes unless
`scale` is 1, and the creation of the output folder unless it exists. -/
def setupEvents (cfg : Config) (w : World) : List Event :=
  resizeEvents cfg ++ (if ¬ w.stored_folder_exists then [.create_directory] else [])

/-- The values of lines 122-146. -/
structure Matched where
  kpts1 : List KeyPoint
  kpts2 : List KeyPoint
  knn_matches : List (List DMatch)
  good_matches : List DMatch

/-- Lines 122-146: detection on both images, 2-nearest-neighbour matching, the
match filter. -/
def matchFeatures (fl : ℚ → ℚ) (cfg : Config) (w : World) (img1 img2 : Mat)
    (detector : Detector) (matcher : Matcher) : Matched :=
  let d1 := w.detectAndCompute detector img1
  let d2 := w.detectAndCompute detector img2
  let knn_matches := w.knnMatch matcher d1.2 d2.2
  { kpts1 := d1.1, kpts2 := d2.1, knn_matches := knn_matches,
    good_matches := good_matches fl cfg.use_ratio_test cfg.ratio_thresh knn_matches }

/-- Lines 155-162: the two point lists and the call of `cv::findHomography`, which
yields `H` (possibly empty) and `inliers_mask`. -/
def estimate (cfg : Config) (w : World) (m : Matched) : Option Mat33 × List ℕ :=
  let pts1 := m.good_matches.map (fun g => (m.kpts1.getD g.queryIdx.toNat default).pt)
  let pts2 := m.good_matches.map (fun g => (m.kpts2.getD g.trainIdx.toNat default).pt)
  w.findHomography pts2 pts1 cfg.ransac_reproj_thresh

/-- The counter of lines 165-168: the number of non-zero entries of `inliers_mask`. -/
def num_inliers (inliers_mask : List ℕ) : ℕ :=
  inliers_mask.foldl (fun num_inliers m => if m ≠ 0 then num_inliers + 1 else num_inliers) 0

/-- The values of lines 218-252. -/
structure Canvas where
  roi : Rect
  H_translated : Mat33
  pano_w : ℤ
  pano_h : ℤ
  warped1 : Mat
  warped2 : Mat
  mask1 : Mat
  mask2 : Mat

/-- Lines 218-252: the warped corners of image 2, the bounding box, the translation
and the translated homography, the canvas size, image 1 copied at its rectangle,
image 2 warped, `mask1` set to 255 on that rectangle, `mask2` thresholded from the
warped image 2. -/
def buildCanvas (fl : ℚ → ℚ) (w : World) (img1 img2 : Mat) (H : Mat33) : Canvas :=
  let corners2 := imageCorners fl img2.cols img2.rows
  let corners2_warped := w.perspectiveTransform corners2 H
  let all_corners := all_corners fl img1.cols img1.rows corners2_warped
  let b := boundingBox all_corners
  let H_translated := translation b * H
  let pano_w := pano_w fl b
  let pano_h := pano_h fl b
  let roi := placement b img1.cols img1.rows
  let warped1 := w.copyTo img1 pano_h pano_w roi
  let warped2 := w.warpPerspective img2 H_translated pano_w pano_h
  let mask1 := w.setTo pano_h pano_w roi 255
  let gray2 := w.cvtColor warped2
  let mask2 := w.threshold gray2
  { roi := roi, H_translated := H_translated, pano_w := pano_w, pano_h := pano_h,
    warped1 := warped1, warped2 := warped2, mask1 := mask1, mask2 := mask2 }

/-- The check `cv::Mat::operator()(const cv::Rect&)` makes at lines 242 and 247:
the rectangle lies inside the matrix of `cols` columns and `rows` rows.  The call
throws when it does not. -/
def Rect.inside (r : Rect) (cols rows : ℤ) : Bool :=
  decide (0 ≤ r.x ∧ 0 ≤ r.width ∧ r.x + r.width ≤ cols ∧
    0 ≤ r.y ∧ 0 ≤ r.height ∧ r.y + r.height ≤ rows)

/-- What the handlers of lines 277-285 write to `std::cerr`. -/
def seamMessages (r : SeamResult) : List Event :=
  match r with
  | .returned _ => []
  | .cvException what _ => [.cerr ("Voronoi failed: " ++ what ++ "\nSkipping seam finding.\n")]
  | .stdException what _ =>
      [.cerr ("Seam finding failed with error: " ++ what ++ "\nSkipping seam finding.\n")]
  | .unknownException _ =>
      [.cerr "Seam finding failed with unknown error. Skipping seam finding.\n"]

/-- The copy-back loop of lines 289-291: `masks_um[i].copyTo(masks[i])` for every
index of `masks`. -/
def copyBack (masks masks_um : List Mat) : List Mat :=
  (List.range masks.length).map (fun i => masks_um.getD i (masks.getD i default))

/-- The feed loop of lines 297-302: image `i` with mask `i` at corner `i`. -/
def feeds (imgs masks : List Mat) (corners : List (ℤ × ℤ)) : List (Mat × Mat × (ℤ × ℤ)) :=
  (List.range imgs.length).map (fun i =>
    (imgs.getD i default, masks.getD i default, corners.getD i default))

/-- Lines 254-345: the working copies `imgs_um` and `masks_um`, seam finding under
`try` (all three handlers fall through), the copy-back of `masks_um` in whatever
state the call left it, multi-band blending, saving and showing. -/
def seamAndBlend (w : World) (c : Canvas) (tr : List Event) : Run :=
  let imgs := [c.warped1, c.warped2]
  let masks := [c.mask1, c.mask2]
  let corners : List (ℤ × ℤ) := [(0, 0), (0, 0)]
  let imgs_um := imgs
  let masks_um := masks
  let r := w.seamFind imgs_um corners masks_um
  let masks_um := r.masks_um
  let masks := copyBack masks masks_um
  let fed := feeds imgs masks corners
  let result := w.blend ⟨0, 0, c.pano_w, c.pano_h⟩ fed
  { trace := tr ++ [.seamFind] ++ seamMessages r
      ++ [.blender_prepare ⟨0, 0, c.pano_w, c.pano_h⟩]
      ++ fed.map (fun f => .blender_feed f.1 f.2.1 f.2.2)
      ++ [.blender_blend, .imwrite result, .imwrite_stats, .imshow],
    exit := .returned 0 }

/-- Lines 218-252 followed by `seamAndBlend`.  Taking the rectangle of image 1 out
of the canvas (line 242) throws when the rectangle is not inside the canvas, and
nothing catches it. -/
def warpStage (fl : ℚ → ℚ) (w : World) (img1 img2 : Mat) (H : Mat33) (tr : List Event) : Run :=
  let c := buildCanvas fl w img1 img2 H
  if c.roi.inside c.pano_w c.pano_h then
    seamAndBlend w c
      (tr ++ [.perspectiveTransform, .copyTo c.roi,
        .warpPerspective c.H_translated c.pano_w c.pano_h])
  else
    { trace := tr ++ [.perspectiveTransform],
      exit := .terminate .roi "cv::Mat::operator(): the rectangle is not inside the matrix" }

/-- Lines 153-221: `cv::findHomography`, the inlier count, its report and the
statistics image; then `cv::perspectiveTransform`, which throws on an empty `H`
(nothing catches it), and `warpStage`.  The count `num_inliers` goes into the
report and the statistics text and nowhere else; `H` is not tested. -/
def homographyStage (fl : ℚ → ℚ) (cfg : Config) (w : World) (img1 img2 : Mat)
    (m : Matched) (tr : List Event) : Run :=
  let est := estimate cfg w m
  let inliers_mask := est.2
  let num_inliers := num_inliers inliers_mask
  let tr := tr ++ [.findHomography, .cout_inliers num_inliers m.good_matches.length,
    .drawMatches]
  match est.1 with
  | none =>
    { trace := tr ++ [.perspectiveTransform],
      exit := .terminate .perspectiveTransform
        "cv::perspectiveTransform: the transformation matrix is empty" }
  | some H => warpStage fl w img1 img2 H tr

/-- Lines 122-151: detection, matching, the match filter and the gate on the number
of good matches; then `homographyStage`. -/
def matchStage (fl : ℚ → ℚ) (cfg : Config) (w : World) (img1 img2 : Mat)
    (detector : Detector) (matcher : Matcher) (tr : List Event) : Run :=
  let m := matchFeatures fl cfg w img1 img2 detector matcher
  let tr := tr ++ [.detectAndCompute, .detectAndCompute, .knnMatch]
  if m.good_matches.length < 4 then
    { trace := tr ++ [.cerr "Not enough matches.\n"], exit := .returned 1 }
  else homographyStage fl cfg w img1 img2 m tr

/-- Lines 116-120: the detector under `try`, the matcher outside it; then
`matchStage`. -/
def factoryStage (fl : ℚ → ℚ) (cfg : Config) (w : World) (img1 img2 : Mat)
    (tr : List Event) : Run :=
  match makeDetector cfg.detector_name 2000 with
  | .error what => { trace := tr ++ [.cerr (what ++ "\n")], exit := .returned 1 }
  | .ok detector =>
    match makeMatcher cfg.detector_name with
    | .error what => { trace := tr, exit := .terminate .makeMatcher what }
    | .ok matcher => matchStage fl cfg w img1 img2 detector matcher tr

/-- Lines 107-114: the two resizes and the output folder, none of them under a
`try`; then `factoryStage`. -/
def setupStage (fl : ℚ → ℚ) (cfg : Config) (w : World) (img1 img2 : Mat)
    (tr : List Event) : Run :=
  match scaled cfg w img1 with
  | .error what => { trace := tr ++ [.resize], exit := .terminate .resize what }
  | .ok img1 =>
    match scaled cfg w img2 with
    | .error what => { trace := tr ++ [.resize, .resize], exit := .terminate .resize what }
    | .ok img2 =>
      match ensureFolder w with
      | .error what =>
        { trace := tr ++ resizeEvents cfg ++ [.create_directory],
          exit := .terminate .create_directory what }
      | .ok _ => factoryStage fl cfg w img1 img2 (tr ++ setupEvents cfg w)

/-- The function `main` of the source from line 83 on: the two `cv::imread` calls
and the check that both images loaded; then `setupStage`.  Of the three lines the
failed check writes to `std::cerr`, the first is recorded; the other two print
the paths. -/
def main (fl : ℚ → ℚ) (cfg : Config) (w : World) : Run :=
  let img1 := w.imread cfg.left_path
  let img2 := w.imread cfg.right_path
  let tr := [Event.imread cfg.left_path, Event.imread cfg.right_path]
  if img1.empty || img2.empty then
    { trace := tr ++ [.cerr "Failed to load one or both images."], exit := .returned 1 }
  else setupStage fl cfg w img1 img2 tr

/-- The image every path holds in the concrete world. -/
def demoImage : Mat := ⟨4, 4, [7]⟩

/-- A world for the concrete runs below.  Every path holds a 4×4 image; resizing
and creating the folder return; detection finds the four corners of the image;
each of the four queries has a best candidate at distance 1 and a second-best at
distance 4; the estimate is `H` with the given `inliers_mask`, and warps points by
the identity; the seam finder ends as `seam` says. -/
def demoWorld (H : Option Mat33) (inliers_mask : List ℕ) (seam : List Mat → SeamResult) :
    World :=
  { imread := fun _ => demoImage,
    resize := fun img s => .ok ⟨toInt (img.rows * s), toInt (img.cols * s), img.data⟩,
    stored_folder_exists := true,
    create_directory := .ok (),
    detectAndCompute := fun _ img =>
      ([⟨⟨0, 0⟩⟩, ⟨⟨img.cols, 0⟩⟩, ⟨⟨img.cols, img.rows⟩⟩, ⟨⟨0, img.rows⟩⟩], ⟨4, 1, []⟩),
    knnMatch := fun _ _ _ =>
      [[⟨0, 0, 1⟩, ⟨0, 1, 4⟩], [⟨1, 1, 1⟩, ⟨1, 2, 4⟩], [⟨2, 2, 1⟩, ⟨2, 3, 4⟩], [⟨3, 3, 1⟩, ⟨3, 0, 4⟩]],
    findHomography := fun _ _ _ => (H, inliers_mask),
    perspectiveTransform := fun pts _ => pts,
    copyTo := fun img h w _ => ⟨h, w, img.data⟩,
    warpPerspective := fun img _ w h => ⟨h, w, img.data⟩,
    setTo := fun h w _ v => ⟨h, w, [v]⟩,
    cvtColor := fun img => img,
    threshold := fun img => ⟨img.rows, img.cols, [255]⟩,
    seamFind := fun _ _ masks => seam masks,
    blend := fun roi _ => ⟨roi.height, roi.width, []⟩ }

/-- A configuration for the concrete runs below: the given detector name, scale
and ratio threshold, ratio test on, RANSAC threshold 3. -/
def demoConfig (detector_name : String) (scale ratio_thresh : ℚ) : Config :=
  { left_path := "../../images/left.jpg", right_path := "../../images/right.jpg",
    detector_name := detector_name, scale := scale, use_ratio_test := true,
    ratio_thresh := ratio_thresh, ransac_reproj_thresh := 3 }

/-! ## Lemmas on the match filter -/

theorem specFilter_eq_filterMap (fl : ℚ → ℚ) (u : Bool) (r : ℚ) (knn : List (List DMatch)) :
    specFilter fl u r knn = knn.filterMap (specPick fl u r) := rfl

theorem ratioLoop_foldl (fl : ℚ → ℚ) (r : ℚ) (knn : List (List DMatch)) (acc : List DMatch) :
    knn.foldl (fun good_matches mvec =>
      if mvec.length ≥ 2 ∧
          (mvec.getD 0 default).distance < fl (r * (mvec.getD 1 default).distance) then
        good_matches ++ [mvec.getD 0 default]
      else good_matches) acc = acc ++ knn.filterMap (specPick fl true r) := by
  induction knn generalizing acc with
  | nil => simp
  | cons mvec rest ih =>
    rw [List.foldl_cons, ih]
    match mvec with
    | [] => simp [specPick]
    | [a] => simp [specPick]
    | a :: b :: t =>
      by_cases h : a.distance < fl (r * b.distance)
      · simp [specPick, h]
      · simp [specPick, h]

theorem bestLoop_foldl (knn : List (List DMatch)) (acc : List DMatch) :
    knn.foldl (fun good_matches mvec =>
      if ¬ mvec.isEmpty then good_matches ++ [mvec.getD 0 default] else good_matches) acc
      = acc ++ knn.filterMap (specPick id false 0) := by
  induction knn generalizing acc with
  | nil => simp
  | cons mvec rest ih =>
    rw [List.foldl_cons, ih]
    match mvec with
    | [] => simp [specPick]
    | a :: t => simp [specPick]

theorem specPick_false (fl : ℚ → ℚ) (r : ℚ) (entry : List DMatch) :
    specPick fl false r entry = specPick id false 0 entry := by
  cases entry <;> rfl

theorem good_matches_eq_filterMap (fl : ℚ → ℚ) (u : Bool) (r : ℚ) (knn : List (List DMatch)) :
    good_matches fl u r knn = knn.filterMap (specPick fl u r) := by
  cases u with
  | true =>
    have h := ratioLoop_foldl fl r knn []
    simpa [good_matches, ratioLoop] using h
  | false =>
    have h := bestLoop_foldl knn []
    have e : specPick fl false r = specPick id false 0 := funext (specPick_false fl r)
    simpa [good_matches, bestLoop, e] using h

/-- One entry accepted under the smaller threshold is accepted under the larger. -/
theorem specPick_mono (fl : ℚ → ℚ) (hfl : Monotone fl) (r1 r2 : ℚ) (h12 : r1 ≤ r2)
    (entry : List DMatch) (hnn : ∀ m ∈ entry, 0 ≤ m.distance) :
    (specPick fl true r1 entry).isSome → (specPick fl true r2 entry).isSome := by
  match entry with
  | [] => simp [specPick]
  | [a] => simp [specPick]
  | a :: b :: t =>
    have hb : 0 ≤ b.distance := hnn b (by simp)
    have hle : fl (r1 * b.distance) ≤ fl (r2 * b.distance) :=
      hfl (mul_le_mul_of_nonneg_right h12 hb)
    by_cases h1 : a.distance < fl (r1 * b.distance)
    · have h2 : a.distance < fl (r2 * b.distance) := lt_of_lt_of_le h1 hle
      simp [specPick, h1, h2]
    · simp [specPick, h1]

theorem filterMap_length_mono {α β : Type} (f g : α → Option β) (l : List α)
    (h : ∀ a ∈ l, (f a).isSome → (g a).isSome) :
    (l.filterMap f).length ≤ (l.filterMap g).length := by
  induction l with
  | nil => simp
  | cons a t ih =>
    have iht := ih (fun x hx => h x (List.mem_cons_of_mem a hx))
    have ha := h a (List.mem_cons_self a t)
    cases hf : f a with
    | none =>
      cases hg : g a with
      | none => simpa [List.filterMap_cons, hf, hg] using iht
      | some y =>
        simp only [List.filterMap_cons, hf, hg, List.length_cons]
        omega
    | some x =>
      cases hg : g a with
      | none => simp [hf, hg] at ha
      | some y =>
        simp only [List.filterMap_cons, hf, hg, List.length_cons]
        omega

/-! ## Claims on the match filter -/

/-- C1: the ratio test is monotonic in the threshold.  For every rounding of the
float product that is monotone, every list of candidate lists whose distances are
non-negative and every two thresholds `r1 ≤ r2`, the number of matches accepted
into `good_matches` with threshold `r1` (ratio test enabled) is at most the
number accepted with threshold `r2`. -/
theorem ratio_test_monotone (fl : ℚ → ℚ) (hfl : Monotone fl)
    (knn_matches : List (List DMatch))
    (hnn : ∀ mvec ∈ knn_matches, ∀ m ∈ mvec, 0 ≤ m.distance)
    (r1 r2 : ℚ) (h12 : r1 ≤ r2) :
    (good_matches fl true r1 knn_matches).length ≤ (good_matches fl true r2 knn_matches).length := by
  rw [good_matches_eq_filterMap, good_matches_eq_filterMap]
  exact filterMap_length_mono _ _ _
    (fun mvec hm => specPick_mono fl hfl r1 r2 h12 mvec (hnn mvec hm))

/-- C1 at a concrete input: exact arithmetic, three candidate lists, thresholds
1/2 and 3/4; one match passes the first threshold and two pass the second. -/
theorem ratio_test_monotone_witness :
    Monotone (id : ℚ → ℚ) ∧
    (good_matches id true (1/2) [[⟨0, 5, 1⟩, ⟨0, 7, 4⟩], [⟨1, 2, 2⟩, ⟨1, 3, 3⟩], [⟨2, 9, 1⟩]]).length = 1 ∧
    (good_matches id true (3/4) [[⟨0, 5, 1⟩, ⟨0, 7, 4⟩], [⟨1, 2, 2⟩, ⟨1, 3, 3⟩], [⟨2, 9, 1⟩]]).length = 2 ∧
    (good_matches id true (1/2) [[⟨0, 5, 1⟩, ⟨0, 7, 4⟩], [⟨1, 2, 2⟩, ⟨1, 3, 3⟩], [⟨2, 9, 1⟩]]).length
      ≤ (good_matches id true (3/4) [[⟨0, 5, 1⟩, ⟨0, 7, 4⟩], [⟨1, 2, 2⟩, ⟨1, 3, 3⟩], [⟨2, 9, 1⟩]]).length :=
  ⟨monotone_id,
   by simp [good_matches, ratioLoop]; norm_num,
   by simp [good_matches, ratioLoop]; norm_num,
   ratio_test_monotone id monotone_id _
     (by
       intro mvec hm m hmem
       simp only [List.mem_cons, List.mem_singleton, List.not_mem_nil, or_false] at hm
       rcases hm with rfl | rfl | rfl <;>
         simp only [List.mem_cons, List.mem_singleton, List.not_mem_nil, or_false] at hmem <;>
         rcases hmem with rfl | rfl <;> norm_num)
     (1/2) (3/4) (by norm_num)⟩

/-- C2: the match filter of `main` equals its specified definition.  For every
flag, threshold and list of candidate lists, `good_matches` as the two loops of
lines 137-146 build it is the list the specification describes: with the ratio
test, the best candidates, in query order, of the entries having a best and a
second-best candidate with `best.distance < ratio_thresh * second.distance`;
without it, the best candidate of every entry that has one. -/
theorem good_matches_eq_spec (fl : ℚ → ℚ) (use_ratio_test : Bool) (ratio_thresh : ℚ)
    (knn_matches : List (List DMatch)) :
    good_matches fl use_ratio_test ratio_thresh knn_matches
      = specFilter fl use_ratio_test ratio_thresh knn_matches := by
  rw [good_matches_eq_filterMap, specFilter_eq_filterMap]

/-! ## Lemmas on the canvas arithmetic -/

theorem toInt_intCast (n : ℤ) : toInt (n : ℚ) = n := by
  unfold toInt
  split_ifs <;> simp

theorem toInt_of_nonneg (q : ℚ) (h : 0 ≤ q) : toInt q = ⌊q⌋ := by
  unfold toInt
  simp [h]

theorem pano_w_eq (fl : ℚ → ℚ) (b : BBox) : pano_w fl b = ⌈fl (b.max_x - b.min_x)⌉ :=
  toInt_intCast _

theorem pano_h_eq (fl : ℚ → ℚ) (b : BBox) : pano_h fl b = ⌈fl (b.max_y - b.min_y)⌉ :=
  toInt_intCast _

/-- The loop only lowers the minima and raises the maxima. -/
theorem foldl_extend_init (l : List Point2f) (b0 : BBox) :
    (l.foldl BBox.extend b0).min_x ≤ b0.min_x ∧ (l.foldl BBox.extend b0).min_y ≤ b0.min_y ∧
    b0.max_x ≤ (l.foldl BBox.extend b0).max_x ∧ b0.max_y ≤ (l.foldl BBox.extend b0).max_y := by
  induction l generalizing b0 with
  | nil => simp
  | cons p t ih =>
    obtain ⟨h1, h2, h3, h4⟩ := ih (b0.extend p)
    simp only [List.foldl_cons]
    refine ⟨le_trans h1 ?_, le_trans h2 ?_, le_trans ?_ h3, le_trans ?_ h4⟩
    · exact min_le_left _ _
    · exact min_le_left _ _
    · exact le_max_left _ _
    · exact le_max_left _ _

/-- Every corner the loop has visited lies between the extrema. -/
theorem foldl_extend_mem (l : List Point2f) (b0 : BBox) (p : Point2f) (hp : p ∈ l) :
    (l.foldl BBox.extend b0).min_x ≤ p.x ∧ (l.foldl BBox.extend b0).min_y ≤ p.y ∧
    p.x ≤ (l.foldl BBox.extend b0).max_x ∧ p.y ≤ (l.foldl BBox.extend b0).max_y := by
  induction l generalizing b0 with
  | nil => simp at hp
  | cons q t ih =>
    simp only [List.foldl_cons]
    rcases List.mem_cons.mp hp with rfl | ht
    · obtain ⟨h1, h2, h3, h4⟩ := foldl_extend_init t (b0.extend p)
      refine ⟨le_trans h1 ?_, le_trans h2 ?_, le_trans ?_ h3, le_trans ?_ h4⟩
      · exact min_le_right _ _
      · exact min_le_right _ _
      · exact le_max_right _ _
      · exact le_max_right _ _
    · exact ih (b0.extend q) ht

theorem boundingBox_mem (l : List Point2f) (p : Point2f) (hp : p ∈ l) :
    (boundingBox l).min_x ≤ p.x ∧ (boundingBox l).min_y ≤ p.y ∧
    p.x ≤ (boundingBox l).max_x ∧ p.y ≤ (boundingBox l).max_y :=
  foldl_extend_mem l _ p hp

theorem origin_mem_allCorners (fl : ℚ → ℚ) (cols rows : ℤ) (cw : List Point2f) :
    (⟨0, 0⟩ : Point2f) ∈ all_corners fl cols rows cw := by
  simp [all_corners, imageCorners]

theorem far_corner_mem_allCorners (fl : ℚ → ℚ) (cols rows : ℤ) (cw : List Point2f) :
    (⟨fl cols, fl rows⟩ : Point2f) ∈ all_corners fl cols rows cw := by
  simp [all_corners, imageCorners]

/-- The box of `main` has its minimum corner at or before the origin and its
maximum corner at or after the far corner of image 1. -/
theorem boundingBox_allCorners (fl : ℚ → ℚ) (cols rows : ℤ) (cw : List Point2f) :
    (boundingBox (all_corners fl cols rows cw)).min_x ≤ 0 ∧
    (boundingBox (all_corners fl cols rows cw)).min_y ≤ 0 ∧
    fl cols ≤ (boundingBox (all_corners fl cols rows cw)).max_x ∧
    fl rows ≤ (boundingBox (all_corners fl cols rows cw)).max_y := by
  obtain ⟨h1, h2, _, _⟩ := boundingBox_mem _ _ (origin_mem_allCorners fl cols rows cw)
  obtain ⟨_, _, h3, h4⟩ := boundingBox_mem _ _ (far_corner_mem_allCorners fl cols rows cw)
  exact ⟨h1, h2, h3, h4⟩

theorem translation_entries (b : BBox) :
    translation b 0 2 = -b.min_x ∧ translation b 1 2 = -b.min_y := by
  simp [translation]

/-- The canvas of `main` is built from the box of `all_corners`: its rectangle is
`placement`, its size `pano_w` by `pano_h`, and image 2 is warped with the
translation pre-multiplied onto `H`. -/
theorem buildCanvas_fields (fl : ℚ → ℚ) (w : World) (img1 img2 : Mat) (H : Mat33) :
    (buildCanvas fl w img1 img2 H).roi
      = placement (boundingBox (all_corners fl img1.cols img1.rows
          (w.perspectiveTransform (imageCorners fl img2.cols img2.rows) H)))
          img1.cols img1.rows ∧
    (buildCanvas fl w img1 img2 H).pano_w
      = pano_w fl (boundingBox (all_corners fl img1.cols img1.rows
          (w.perspectiveTransform (imageCorners fl img2.cols img2.rows) H))) ∧
    (buildCanvas fl w img1 img2 H).pano_h
      = pano_h fl (boundingBox (all_corners fl img1.cols img1.rows
          (w.perspectiveTransform (imageCorners fl img2.cols img2.rows) H))) ∧
    (buildCanvas fl w img1 img2 H).H_translated
      = translation (boundingBox (all_corners fl img1.cols img1.rows
          (w.perspectiveTransform (imageCorners fl img2.cols img2.rows) H))) * H :=
  ⟨rfl, rfl, rfl, rfl⟩

/-! ## Lemmas on single precision -/

/-- Rounding to the nearest integer stays between the floor and the floor plus one. -/
theorem roundHalfEven_bounds (x : ℚ) : ⌊x⌋ ≤ roundHalfEven x ∧ roundHalfEven x ≤ ⌊x⌋ + 1 := by
  unfold roundHalfEven
  split_ifs <;> constructor <;> omega

theorem roundHalfEven_intCast (n : ℤ) : roundHalfEven (n : ℚ) = n := by
  simp [roundHalfEven]

theorem roundHalfEven_mono {x y : ℚ} (h : x ≤ y) : roundHalfEven x ≤ roundHalfEven y := by
  have hf : ⌊x⌋ ≤ ⌊y⌋ := Int.floor_le_floor h
  rcases lt_or_eq_of_le hf with hlt | heq
  · have h1 := (roundHalfEven_bounds x).2
    have h2 := (roundHalfEven_bounds y).1
    omega
  · unfold roundHalfEven
    rw [← heq]
    have hxy : x - ⌊x⌋ ≤ y - ⌊x⌋ := by linarith
    split_ifs <;> first | omega | (exfalso; linarith)

theorem roundHalfEven_neg (x : ℚ) : roundHalfEven (-x) = -roundHalfEven x := by
  by_cases hx : (⌊x⌋ : ℚ) = x
  · rw [← hx]
    have : -((⌊x⌋ : ℤ) : ℚ) = ((-⌊x⌋ : ℤ) : ℚ) := by push_cast; ring
    rw [this, roundHalfEven_intCast, roundHalfEven_intCast]
  · have hlt : (⌊x⌋ : ℚ) < x := lt_of_le_of_ne (Int.floor_le x) hx
    have hfl : ⌊-x⌋ = -⌊x⌋ - 1 := by
      rw [Int.floor_eq_iff]
      have := Int.lt_floor_add_one x
      constructor
      · push_cast; linarith
      · push_cast; linarith
    unfold roundHalfEven
    rw [hfl]
    push_cast
    split_ifs <;> first | omega | (exfalso; linarith)

theorem ulp32_pos (q : ℚ) : 0 < ulp32 q := by
  unfold ulp32; positivity

theorem ulp32_neg (q : ℚ) : ulp32 (-q) = ulp32 q := by
  unfold ulp32; rw [abs_neg]

theorem roundF32_neg (q : ℚ) : roundF32 (-q) = -roundF32 q := by
  unfold roundF32
  rw [ulp32_neg, neg_div, roundHalfEven_neg]
  push_cast
  ring

theorem roundF32_nonneg {q : ℚ} (h : 0 ≤ q) : 0 ≤ roundF32 q := by
  unfold roundF32
  have hu := ulp32_pos q
  have h0 : (0 : ℚ) ≤ q / ulp32 q := div_nonneg h hu.le
  have h1 : roundHalfEven (0 : ℚ) ≤ roundHalfEven (q / ulp32 q) := roundHalfEven_mono h0
  have h2 : roundHalfEven (0 : ℚ) = 0 := by exact_mod_cast roundHalfEven_intCast 0
  rw [h2] at h1
  have : (0 : ℚ) ≤ (roundHalfEven (q / ulp32 q) : ℚ) := by exact_mod_cast h1
  positivity

/-- A positive number is at most twice the power of two of its exponent: its float is
at most `2 ^ (e + 1)`. -/
theorem roundF32_le_top {q : ℚ} (hq : 0 < q) :
    roundF32 q ≤ 2 ^ (max (Int.log 2 |q|) (-126) + 1) := by
  have hu := ulp32_pos q
  have habs : |q| = q := abs_of_pos hq
  have hlt : q < (2 : ℚ) ^ (Int.log 2 |q| + 1) := by
    have := Int.lt_zpow_succ_log_self (b := 2) (by norm_num) |q|
    rw [habs] at this ⊢
    exact_mod_cast this
  have hle : q ≤ (2 : ℚ) ^ (max (Int.log 2 |q|) (-126) + 1) := by
    refine le_trans hlt.le ?_
    apply zpow_le_zpow_right₀ (by norm_num)
    have := le_max_left (Int.log 2 |q|) (-126)
    omega
  have hdiv : q / ulp32 q ≤ ((2 ^ 24 : ℤ) : ℚ) := by
    rw [div_le_iff₀ hu]
    refine le_trans hle ?_
    unfold ulp32
    have : ((2 ^ 24 : ℤ) : ℚ) = (2 : ℚ) ^ (24 : ℤ) := by norm_num
    rw [this, ← zpow_add₀ (by norm_num : (2 : ℚ) ≠ 0)]
    apply le_of_eq
    congr 1
    ring
  have hr : roundHalfEven (q / ulp32 q) ≤ 2 ^ 24 := by
    have := roundHalfEven_mono hdiv
    rwa [roundHalfEven_intCast] at this
  unfold roundF32
  have hr' : (roundHalfEven (q / ulp32 q) : ℚ) ≤ ((2 ^ 24 : ℤ) : ℚ) := by exact_mod_cast hr
  calc (roundHalfEven (q / ulp32 q) : ℚ) * ulp32 q
      ≤ ((2 ^ 24 : ℤ) : ℚ) * ulp32 q := mul_le_mul_of_nonneg_right hr' hu.le
    _ = 2 ^ (max (Int.log 2 |q|) (-126) + 1) := by
      unfold ulp32
      have : ((2 ^ 24 : ℤ) : ℚ) = (2 : ℚ) ^ (24 : ℤ) := by norm_num
      rw [this, ← zpow_add₀ (by norm_num : (2 : ℚ) ≠ 0)]
      congr 1
      ring

/-- A positive normal number is at least the power of two of its exponent, and so is
its float. -/
theorem roundF32_ge_bottom {q : ℚ} (hq : 0 < q) (hn : -126 ≤ Int.log 2 |q|) :
    (2 : ℚ) ^ (Int.log 2 |q|) ≤ roundF32 q := by
  have hu := ulp32_pos q
  have habs : |q| = q := abs_of_pos hq
  have hge : (2 : ℚ) ^ (Int.log 2 |q|) ≤ q := by
    have := Int.zpow_log_le_self (b := 2) (r := |q|) (by norm_num) (by rw [habs]; exact hq)
    rw [habs] at this ⊢
    exact_mod_cast this
  have hue : ulp32 q = 2 ^ (Int.log 2 |q| - 23) := by
    unfold ulp32; rw [max_eq_left hn]
  have hdiv : ((2 ^ 23 : ℤ) : ℚ) ≤ q / ulp32 q := by
    rw [le_div_iff₀ hu, hue]
    have : ((2 ^ 23 : ℤ) : ℚ) = (2 : ℚ) ^ (23 : ℤ) := by norm_num
    rw [this, ← zpow_add₀ (by norm_num : (2 : ℚ) ≠ 0)]
    have e : (23 : ℤ) + (Int.log 2 |q| - 23) = Int.log 2 |q| := by ring
    rw [e]
    exact hge
  have hr : (2 ^ 23 : ℤ) ≤ roundHalfEven (q / ulp32 q) := by
    have := roundHalfEven_mono hdiv
    rwa [roundHalfEven_intCast] at this
  unfold roundF32
  have hr' : ((2 ^ 23 : ℤ) : ℚ) ≤ (roundHalfEven (q / ulp32 q) : ℚ) := by exact_mod_cast hr
  calc (2 : ℚ) ^ (Int.log 2 |q|) = ((2 ^ 23 : ℤ) : ℚ) * ulp32 q := by
        rw [hue]
        have : ((2 ^ 23 : ℤ) : ℚ) = (2 : ℚ) ^ (23 : ℤ) := by norm_num
        rw [this, ← zpow_add₀ (by norm_num : (2 : ℚ) ≠ 0)]
        congr 1
        ring
    _ ≤ (roundHalfEven (q / ulp32 q) : ℚ) * ulp32 q := mul_le_mul_of_nonneg_right hr' hu.le

theorem roundF32_mono_pos {a b : ℚ} (ha : 0 < a) (hab : a ≤ b) : roundF32 a ≤ roundF32 b := by
  have hb : 0 < b := lt_of_lt_of_le ha hab
  have hlog : Int.log 2 |a| ≤ Int.log 2 |b| := by
    rw [abs_of_pos ha, abs_of_pos hb]
    exact Int.log_mono_right ha hab
  have hE : max (Int.log 2 |a|) (-126) ≤ max (Int.log 2 |b|) (-126) :=
    max_le_max hlog (le_refl _)
  rcases lt_or_eq_of_le hE with hlt | heq
  · have h1 := roundF32_le_top ha
    have hbn : -126 ≤ Int.log 2 |b| := by
      by_contra hcon
      push_neg at hcon
      have : max (Int.log 2 |b|) (-126) = -126 := max_eq_right hcon.le
      have := le_max_right (Int.log 2 |a|) (-126)
      omega
    have h2 := roundF32_ge_bottom hb hbn
    have hmax : max (Int.log 2 |b|) (-126) = Int.log 2 |b| := max_eq_left hbn
    have h3 : (2 : ℚ) ^ (max (Int.log 2 |a|) (-126) + 1) ≤ 2 ^ (Int.log 2 |b|) := by
      apply zpow_le_zpow_right₀ (by norm_num)
      omega
    linarith
  · have hu : ulp32 a = ulp32 b := by unfold ulp32; rw [heq]
    unfold roundF32
    rw [hu]
    have hub := ulp32_pos b
    have hdiv : a / ulp32 b ≤ b / ulp32 b := div_le_div_of_nonneg_right hab hub.le
    have := roundHalfEven_mono hdiv
    have h' : (roundHalfEven (a / ulp32 b) : ℚ) ≤ (roundHalfEven (b / ulp32 b) : ℚ) := by
      exact_mod_cast this
    exact mul_le_mul_of_nonneg_right h' hub.le

/-- The number 0 is a float. -/
theorem roundF32_zero : roundF32 0 = 0 := by
  simp [roundF32, roundHalfEven]

theorem roundF32_mono_nonneg {a b : ℚ} (ha : 0 ≤ a) (hab : a ≤ b) : roundF32 a ≤ roundF32 b := by
  rcases lt_or_eq_of_le ha with hpos | hz
  · exact roundF32_mono_pos hpos hab
  · rw [← hz, roundF32_zero]
    exact roundF32_nonneg (by linarith)

/-- Conversion to single precision is monotone. -/
theorem roundF32_monotone : Monotone roundF32 := by
  intro a b hab
  by_cases ha : 0 ≤ a
  · exact roundF32_mono_nonneg ha hab
  · push_neg at ha
    by_cases hb : 0 ≤ b
    · have h1 : roundF32 a ≤ 0 := by
        have := roundF32_nonneg (q := -a) (by linarith)
        rw [roundF32_neg] at this
        linarith
      have h2 := roundF32_nonneg hb
      linarith
    · push_neg at hb
      have := roundF32_mono_nonneg (a := -b) (b := -a) (by linarith) (by linarith)
      rw [roundF32_neg, roundF32_neg] at this
      linarith

/-- Every number `m * 2 ^ k` with a significand `m` of at most 24 bits and an exponent
`k` of at least -149 is a float. -/
theorem roundF32_of_significand (m k : ℤ) (hm : |m| < 2 ^ 24) (hk : -149 ≤ k) :
    roundF32 ((m : ℚ) * 2 ^ k) = (m : ℚ) * 2 ^ k := by
  by_cases h0 : m = 0
  · simp [h0, roundF32_zero]
  have h2 : (2 : ℚ) ≠ 0 := by norm_num
  have hpk : (0 : ℚ) < 2 ^ k := by positivity
  have hmq : (0 : ℚ) < |(m : ℚ)| := by
    rw [abs_pos]; exact_mod_cast h0
  have habs : |(m : ℚ) * 2 ^ k| = |(m : ℚ)| * 2 ^ k := by
    rw [abs_mul, abs_of_pos hpk]
  have hpos : 0 < |(m : ℚ) * 2 ^ k| := by rw [habs]; positivity
  have hmlt : |(m : ℚ)| < 2 ^ (24 : ℤ) := by
    have : ((|m| : ℤ) : ℚ) < ((2 ^ 24 : ℤ) : ℚ) := by exact_mod_cast hm
    have e : ((|m| : ℤ) : ℚ) = |(m : ℚ)| := by push_cast; rfl
    rw [e] at this
    calc |(m : ℚ)| < ((2 ^ 24 : ℤ) : ℚ) := this
      _ = 2 ^ (24 : ℤ) := by norm_num
  have hlt : |(m : ℚ) * 2 ^ k| < (2 : ℚ) ^ (24 + k) := by
    rw [habs, zpow_add₀ h2]
    exact mul_lt_mul_of_pos_right hmlt hpk
  have hL : Int.log 2 |(m : ℚ) * 2 ^ k| < 24 + k :=
    (Int.lt_zpow_iff_log_lt (b := 2) (by norm_num) hpos).mp (by exact_mod_cast hlt)
  have hE : max (Int.log 2 |(m : ℚ) * 2 ^ k|) (-126) ≤ 23 + k := by
    apply max_le <;> omega
  obtain ⟨j, hj⟩ : ∃ j : ℕ, (j : ℤ) = 23 + k - max (Int.log 2 |(m : ℚ) * 2 ^ k|) (-126) :=
    ⟨(23 + k - max (Int.log 2 |(m : ℚ) * 2 ^ k|) (-126)).toNat, Int.toNat_of_nonneg (by omega)⟩
  have hu : ulp32 ((m : ℚ) * 2 ^ k) = 2 ^ (k - (j : ℤ)) := by
    unfold ulp32
    congr 1
    omega
  have hdiv : (m : ℚ) * 2 ^ k / ulp32 ((m : ℚ) * 2 ^ k) = ((m * 2 ^ j : ℤ) : ℚ) := by
    rw [hu, zpow_sub₀ h2]
    have hj0 : (0 : ℚ) < 2 ^ (j : ℤ) := by positivity
    field_simp
    ring
  unfold roundF32
  rw [hdiv, roundHalfEven_intCast, hu, zpow_sub₀ h2]
  have hj0 : (0 : ℚ) < 2 ^ (j : ℤ) := by positivity
  push_cast
  field_simp
  ring

/-- Every integer of magnitude at most 2^24 is a float. -/
theorem roundF32_intCast (n : ℤ) (hn : |n| ≤ 2 ^ 24) : roundF32 (n : ℚ) = n := by
  rcases lt_or_eq_of_le hn with hlt | heq
  · have := roundF32_of_significand n 0 hlt (by norm_num)
    simpa using this
  · have hcases : n = 2 ^ 24 ∨ n = -2 ^ 24 := by
      rcases abs_cases n with ⟨h, _⟩ | ⟨h, _⟩ <;> [left; right] <;> omega
    rcases hcases with h | h
    · have := roundF32_of_significand (2 ^ 23) 1 (by norm_num) (by norm_num)
      rw [h]
      norm_num at this ⊢
      exact this
    · have := roundF32_of_significand (-2 ^ 23) 1 (by norm_num) (by norm_num)
      rw [h]
      norm_num at this ⊢
      exact this

/-- The number 4 is a float. -/
theorem roundF32_four : roundF32 4 = 4 := by
  simpa using roundF32_intCast 4 (by norm_num)

/-- The number 9/2 is a float. -/
theorem roundF32_nine_halves : roundF32 (9 / 2) = 9 / 2 := by
  have h := roundF32_of_significand 9 (-1) (by norm_num) (by norm_num)
  norm_num at h
  simpa using h

theorem boundingBox_square :
    boundingBox (all_corners id 4 4 [⟨0, 0⟩, ⟨4, 0⟩, ⟨4, 4⟩, ⟨0, 4⟩]) = ⟨0, 0, 4, 4⟩ := by
  simp [boundingBox, all_corners, imageCorners, BBox.extend, FLT_MAX]
  norm_num

theorem boundingBox_half :
    boundingBox (all_corners id 4 4 [⟨-1/2, 0⟩, ⟨7/2, 0⟩, ⟨7/2, 4⟩, ⟨-1/2, 4⟩])
      = ⟨-1/2, 0, 4, 4⟩ := by
  simp [boundingBox, all_corners, imageCorners, BBox.extend, FLT_MAX]
  norm_num

theorem boundingBox_half_f32 :
    boundingBox (all_corners roundF32 4 4 [⟨-1/2, 0⟩, ⟨7/2, 0⟩, ⟨7/2, 4⟩, ⟨-1/2, 4⟩])
      = ⟨-1/2, 0, 4, 4⟩ := by
  simp [boundingBox, all_corners, imageCorners, BBox.extend, FLT_MAX, roundF32_four]
  norm_num

/-- C3, as stated, fails: image 1 of 4×4 pixels and image 2 of 4×4 pixels under
the identity homography (warped corners (0,0), (4,0), (4,4), (0,4)), exact
arithmetic.  The box is [0,4]×[0,4], the canvas is 4×4, and the corner (4,0)
lands on x = 4 = pano_w, so not every corner has x in [0, pano_w) and y in
[0, pano_h). -/
theorem canvas_half_open_counterexample :
    ¬ (∀ p ∈ all_corners id 4 4 [⟨0, 0⟩, ⟨4, 0⟩, ⟨4, 4⟩, ⟨0, 4⟩],
        0 ≤ (translate (boundingBox (all_corners id 4 4 [⟨0, 0⟩, ⟨4, 0⟩, ⟨4, 4⟩, ⟨0, 4⟩])) p).x ∧
        ((translate (boundingBox (all_corners id 4 4 [⟨0, 0⟩, ⟨4, 0⟩, ⟨4, 4⟩, ⟨0, 4⟩])) p).x
          < pano_w id (boundingBox (all_corners id 4 4 [⟨0, 0⟩, ⟨4, 0⟩, ⟨4, 4⟩, ⟨0, 4⟩]))) ∧
        0 ≤ (translate (boundingBox (all_corners id 4 4 [⟨0, 0⟩, ⟨4, 0⟩, ⟨4, 4⟩, ⟨0, 4⟩])) p).y ∧
        ((translate (boundingBox (all_corners id 4 4 [⟨0, 0⟩, ⟨4, 0⟩, ⟨4, 4⟩, ⟨0, 4⟩])) p).y
          < pano_h id (boundingBox (all_corners id 4 4 [⟨0, 0⟩, ⟨4, 0⟩, ⟨4, 4⟩, ⟨0, 4⟩])))) := by
  intro h
  have h4 := (h ⟨4, 0⟩ (by simp [all_corners, imageCorners])).2.1
  rw [boundingBox_square, pano_w_eq] at h4
  norm_num [translate] at h4

/-- C3, amended: for every extent of image 1, every list of warped corners of
image 2 and every rounding of the float operations, every corner of
`all_corners` (the four corners of image 1 and the warped corners of image 2),
translated by `(-min_x, -min_y)`, has `0 ≤ x ≤ max_x - min_x` and
`0 ≤ y ≤ max_y - min_y`.  Hence `x ≤ pano_w` (and `y ≤ pano_h`), the upper end
included, whenever the float subtraction of line 237 (238) does not round the
difference down, in particular when it is exact; and `x < pano_w + 1`
(`y < pano_h + 1`) whenever the rounding is monotone and the integer part of the
difference is a float. -/
theorem canvas_contains_corners (fl : ℚ → ℚ) (cols rows : ℤ)
    (corners2_warped : List Point2f) :
    ∀ p ∈ all_corners fl cols rows corners2_warped,
      (0 ≤ (translate (boundingBox (all_corners fl cols rows corners2_warped)) p).x ∧
       (translate (boundingBox (all_corners fl cols rows corners2_warped)) p).x ≤ (boundingBox (all_corners fl cols rows corners2_warped)).max_x - (boundingBox (all_corners fl cols rows corners2_warped)).min_x ∧
       0 ≤ (translate (boundingBox (all_corners fl cols rows corners2_warped)) p).y ∧
       (translate (boundingBox (all_corners fl cols rows corners2_warped)) p).y ≤ (boundingBox (all_corners fl cols rows corners2_warped)).max_y - (boundingBox (all_corners fl cols rows corners2_warped)).min_y) ∧
      ((boundingBox (all_corners fl cols rows corners2_warped)).max_x - (boundingBox (all_corners fl cols rows corners2_warped)).min_x ≤ fl ((boundingBox (all_corners fl cols rows corners2_warped)).max_x - (boundingBox (all_corners fl cols rows corners2_warped)).min_x) →
        (translate (boundingBox (all_corners fl cols rows corners2_warped)) p).x ≤ pano_w fl (boundingBox (all_corners fl cols rows corners2_warped))) ∧
      ((boundingBox (all_corners fl cols rows corners2_warped)).max_y - (boundingBox (all_corners fl cols rows corners2_warped)).min_y ≤ fl ((boundingBox (all_corners fl cols rows corners2_warped)).max_y - (boundingBox (all_corners fl cols rows corners2_warped)).min_y) →
        (translate (boundingBox (all_corners fl cols rows corners2_warped)) p).y ≤ pano_h fl (boundingBox (all_corners fl cols rows corners2_warped))) ∧
      (Monotone fl →
        fl ((⌊(boundingBox (all_corners fl cols rows corners2_warped)).max_x - (boundingBox (all_corners fl cols rows corners2_warped)).min_x⌋ : ℤ) : ℚ) = ((⌊(boundingBox (all_corners fl cols rows corners2_warped)).max_x - (boundingBox (all_corners fl cols rows corners2_warped)).min_x⌋ : ℤ) : ℚ) →
        (translate (boundingBox (all_corners fl cols rows corners2_warped)) p).x < pano_w fl (boundingBox (all_corners fl cols rows corners2_warped)) + 1) ∧
      (Monotone fl →
        fl ((⌊(boundingBox (all_corners fl cols rows corners2_warped)).max_y - (boundingBox (all_corners fl cols rows corners2_warped)).min_y⌋ : ℤ) : ℚ) = ((⌊(boundingBox (all_corners fl cols rows corners2_warped)).max_y - (boundingBox (all_corners fl cols rows corners2_warped)).min_y⌋ : ℤ) : ℚ) →
        (translate (boundingBox (all_corners fl cols rows corners2_warped)) p).y < pano_h fl (boundingBox (all_corners fl cols rows corners2_warped)) + 1) := by
  intro p hp
  obtain ⟨h1, h2, h3, h4⟩ := boundingBox_mem _ p hp
  generalize (boundingBox (all_corners fl cols rows corners2_warped)) = b at h1 h2 h3 h4 ⊢
  rw [pano_w_eq, pano_h_eq]
  simp only [translate]
  refine ⟨⟨by linarith, by linarith, by linarith, by linarith⟩, ?_, ?_, ?_, ?_⟩
  · intro hx
    calc p.x - b.min_x ≤ b.max_x - b.min_x := by linarith
      _ ≤ fl (b.max_x - b.min_x) := hx
      _ ≤ _ := Int.le_ceil _
  · intro hy
    calc p.y - b.min_y ≤ b.max_y - b.min_y := by linarith
      _ ≤ fl (b.max_y - b.min_y) := hy
      _ ≤ _ := Int.le_ceil _
  · intro hfl hn
    have hle : ((⌊b.max_x - b.min_x⌋ : ℤ) : ℚ) ≤ fl (b.max_x - b.min_x) := by
      have h := hfl (Int.floor_le (b.max_x - b.min_x))
      rwa [hn] at h
    have hc : (⌊b.max_x - b.min_x⌋ : ℤ) ≤ ⌈fl (b.max_x - b.min_x)⌉ := by
      exact_mod_cast le_trans hle (Int.le_ceil _)
    have hlt : b.max_x - b.min_x < ((⌊b.max_x - b.min_x⌋ : ℤ) : ℚ) + 1 :=
      Int.lt_floor_add_one _
    have hc' : ((⌊b.max_x - b.min_x⌋ : ℤ) : ℚ) ≤ ((⌈fl (b.max_x - b.min_x)⌉ : ℤ) : ℚ) := by
      exact_mod_cast hc
    linarith
  · intro hfl hn
    have hle : ((⌊b.max_y - b.min_y⌋ : ℤ) : ℚ) ≤ fl (b.max_y - b.min_y) := by
      have h := hfl (Int.floor_le (b.max_y - b.min_y))
      rwa [hn] at h
    have hc : (⌊b.max_y - b.min_y⌋ : ℤ) ≤ ⌈fl (b.max_y - b.min_y)⌉ := by
      exact_mod_cast le_trans hle (Int.le_ceil _)
    have hlt : b.max_y - b.min_y < ((⌊b.max_y - b.min_y⌋ : ℤ) : ℚ) + 1 :=
      Int.lt_floor_add_one _
    have hc' : ((⌊b.max_y - b.min_y⌋ : ℤ) : ℚ) ≤ ((⌈fl (b.max_y - b.min_y)⌉ : ℤ) : ℚ) := by
      exact_mod_cast hc
    linarith

/-- C3, amended, at a concrete input in single precision: image 1 of 4×4 pixels,
image 2 shifted half a pixel to the left; the difference 9/2 is a float, the
canvas is 5×4 and the corner (4,4) of image 1 lands on (9/2, 4). -/
theorem canvas_contains_corners_witness :
    (⟨4, 4⟩ : Point2f) ∈ all_corners roundF32 4 4 [⟨-1/2, 0⟩, ⟨7/2, 0⟩, ⟨7/2, 4⟩, ⟨-1/2, 4⟩] ∧
    0 ≤ (translate (boundingBox (all_corners roundF32 4 4 [⟨-1/2, 0⟩, ⟨7/2, 0⟩, ⟨7/2, 4⟩, ⟨-1/2, 4⟩])) ⟨4, 4⟩).x ∧
    (translate (boundingBox (all_corners roundF32 4 4 [⟨-1/2, 0⟩, ⟨7/2, 0⟩, ⟨7/2, 4⟩, ⟨-1/2, 4⟩])) ⟨4, 4⟩).x
      ≤ pano_w roundF32 (boundingBox (all_corners roundF32 4 4 [⟨-1/2, 0⟩, ⟨7/2, 0⟩, ⟨7/2, 4⟩, ⟨-1/2, 4⟩])) ∧
    0 ≤ (translate (boundingBox (all_corners roundF32 4 4 [⟨-1/2, 0⟩, ⟨7/2, 0⟩, ⟨7/2, 4⟩, ⟨-1/2, 4⟩])) ⟨4, 4⟩).y ∧
    (translate (boundingBox (all_corners roundF32 4 4 [⟨-1/2, 0⟩, ⟨7/2, 0⟩, ⟨7/2, 4⟩, ⟨-1/2, 4⟩])) ⟨4, 4⟩).y
      ≤ pano_h roundF32 (boundingBox (all_corners roundF32 4 4 [⟨-1/2, 0⟩, ⟨7/2, 0⟩, ⟨7/2, 4⟩, ⟨-1/2, 4⟩])) ∧
    (translate (boundingBox (all_corners roundF32 4 4 [⟨-1/2, 0⟩, ⟨7/2, 0⟩, ⟨7/2, 4⟩, ⟨-1/2, 4⟩])) ⟨4, 4⟩).x
      < pano_w roundF32 (boundingBox (all_corners roundF32 4 4 [⟨-1/2, 0⟩, ⟨7/2, 0⟩, ⟨7/2, 4⟩, ⟨-1/2, 4⟩])) + 1 :=
  ⟨by simp [all_corners, imageCorners, roundF32_four],
   (canvas_contains_corners roundF32 4 4 [⟨-1/2, 0⟩, ⟨7/2, 0⟩, ⟨7/2, 4⟩, ⟨-1/2, 4⟩] ⟨4, 4⟩ (by simp [all_corners, imageCorners, roundF32_four])).1.1,
   (canvas_contains_corners roundF32 4 4 [⟨-1/2, 0⟩, ⟨7/2, 0⟩, ⟨7/2, 4⟩, ⟨-1/2, 4⟩] ⟨4, 4⟩ (by simp [all_corners, imageCorners, roundF32_four])).2.1
     (by rw [boundingBox_half_f32]; norm_num [roundF32_nine_halves]),
   (canvas_contains_corners roundF32 4 4 [⟨-1/2, 0⟩, ⟨7/2, 0⟩, ⟨7/2, 4⟩, ⟨-1/2, 4⟩] ⟨4, 4⟩ (by simp [all_corners, imageCorners, roundF32_four])).1.2.2.1,
   (canvas_contains_corners roundF32 4 4 [⟨-1/2, 0⟩, ⟨7/2, 0⟩, ⟨7/2, 4⟩, ⟨-1/2, 4⟩] ⟨4, 4⟩ (by simp [all_corners, imageCorners, roundF32_four])).2.2.1
     (by rw [boundingBox_half_f32]; norm_num [roundF32_four]),
   (canvas_contains_corners roundF32 4 4 [⟨-1/2, 0⟩, ⟨7/2, 0⟩, ⟨7/2, 4⟩, ⟨-1/2, 4⟩] ⟨4, 4⟩ (by simp [all_corners, imageCorners, roundF32_four])).2.2.2.1
     roundF32_monotone (roundF32_intCast _ (by
       rw [boundingBox_half_f32]
       have hfloor : ⌊(4 : ℚ) - -1 / 2⌋ = 4 := by
         rw [Int.floor_eq_iff]; norm_num
       rw [hfloor]; norm_num))⟩

/-- C8, as stated, fails: image 1 of 4×4 pixels, image 2 shifted half a pixel to the
left (warped corners (-1/2,0), (7/2,0), (7/2,4), (-1/2,4)).  Then `min_x = -1/2`,
the translation moves by 1/2 in x, and image 1 is copied at column
`(int)0.5 = 0`. -/
theorem placement_translation_counterexample :
    ¬ (((placement (boundingBox (all_corners id 4 4 [⟨-1/2, 0⟩, ⟨7/2, 0⟩, ⟨7/2, 4⟩, ⟨-1/2, 4⟩])) 4 4).x : ℚ)
          = translation (boundingBox (all_corners id 4 4 [⟨-1/2, 0⟩, ⟨7/2, 0⟩, ⟨7/2, 4⟩, ⟨-1/2, 4⟩])) 0 2 ∧
       ((placement (boundingBox (all_corners id 4 4 [⟨-1/2, 0⟩, ⟨7/2, 0⟩, ⟨7/2, 4⟩, ⟨-1/2, 4⟩])) 4 4).y : ℚ)
          = translation (boundingBox (all_corners id 4 4 [⟨-1/2, 0⟩, ⟨7/2, 0⟩, ⟨7/2, 4⟩, ⟨-1/2, 4⟩])) 1 2) := by
  rw [boundingBox_half]
  intro h
  have hx := h.1
  have hfloor : ⌊(2 : ℚ)⁻¹⌋ = 0 := by
    rw [Int.floor_eq_iff]; norm_num
  norm_num [placement, translation, toInt, hfloor] at hx

/-- C8, amended: for every bounding box `main` computes, image 1 is copied (and
`mask1` set) at the translation truncated to whole pixels: the column is the
integer part of `-min_x`, the row the integer part of `-min_y`, each at most the
corresponding entry of the translation pre-multiplied onto the homography and
less than one pixel below it; column and translation entry coincide exactly when
`min_x` is an integer, and likewise for the row and `min_y`. -/
theorem placement_is_truncated_translation (fl : ℚ → ℚ) (cols rows : ℤ)
    (corners2_warped : List Point2f) :
    (placement (boundingBox (all_corners fl cols rows corners2_warped)) cols rows).x
        = ⌊translation (boundingBox (all_corners fl cols rows corners2_warped)) 0 2⌋ ∧
    (placement (boundingBox (all_corners fl cols rows corners2_warped)) cols rows).y
        = ⌊translation (boundingBox (all_corners fl cols rows corners2_warped)) 1 2⌋ ∧
    ((placement (boundingBox (all_corners fl cols rows corners2_warped)) cols rows).x : ℚ)
        ≤ translation (boundingBox (all_corners fl cols rows corners2_warped)) 0 2 ∧
    translation (boundingBox (all_corners fl cols rows corners2_warped)) 0 2
        < (placement (boundingBox (all_corners fl cols rows corners2_warped)) cols rows).x + 1 ∧
    ((placement (boundingBox (all_corners fl cols rows corners2_warped)) cols rows).y : ℚ)
        ≤ translation (boundingBox (all_corners fl cols rows corners2_warped)) 1 2 ∧
    translation (boundingBox (all_corners fl cols rows corners2_warped)) 1 2
        < (placement (boundingBox (all_corners fl cols rows corners2_warped)) cols rows).y + 1 ∧
    (((placement (boundingBox (all_corners fl cols rows corners2_warped)) cols rows).x : ℚ)
        = translation (boundingBox (all_corners fl cols rows corners2_warped)) 0 2
      ↔ ∃ n : ℤ, (boundingBox (all_corners fl cols rows corners2_warped)).min_x = n) ∧
    (((placement (boundingBox (all_corners fl cols rows corners2_warped)) cols rows).y : ℚ)
        = translation (boundingBox (all_corners fl cols rows corners2_warped)) 1 2
      ↔ ∃ n : ℤ, (boundingBox (all_corners fl cols rows corners2_warped)).min_y = n) := by
  obtain ⟨hx, hy, _, _⟩ := boundingBox_allCorners fl cols rows corners2_warped
  obtain ⟨tx, ty⟩ := translation_entries (boundingBox (all_corners fl cols rows corners2_warped))
  generalize boundingBox (all_corners fl cols rows corners2_warped) = b at hx hy tx ty ⊢
  have ex : (placement b cols rows).x = ⌊-b.min_x⌋ := toInt_of_nonneg _ (by linarith)
  have ey : (placement b cols rows).y = ⌊-b.min_y⌋ := toInt_of_nonneg _ (by linarith)
  rw [tx, ty, ex, ey]
  refine ⟨rfl, rfl, Int.floor_le _, Int.lt_floor_add_one _, Int.floor_le _,
    Int.lt_floor_add_one _, ?_, ?_⟩
  · constructor
    · intro h
      exact ⟨-⌊-b.min_x⌋, by push_cast; linarith⟩
    · rintro ⟨n, hn⟩
      rw [hn]
      have : (-(n : ℚ)) = ((-n : ℤ) : ℚ) := by push_cast; ring
      rw [this, Int.floor_intCast]
  · constructor
    · intro h
      exact ⟨-⌊-b.min_y⌋, by push_cast; linarith⟩
    · rintro ⟨n, hn⟩
      rw [hn]
      have : (-(n : ℚ)) = ((-n : ℤ) : ℚ) := by push_cast; ring
      rw [this, Int.floor_intCast]

theorem makeDetector_ok_iff (name : String) (n : ℤ) :
    (∃ d, makeDetector name n = .ok d) ↔ (name = "SIFT" ∨ name = "ORB" ∨ name = "AKAZE") := by
  unfold makeDetector
  by_cases h1 : name = "SIFT"
  · simp [h1]
  · by_cases h2 : name = "ORB"
    · simp [h2]
    · by_cases h3 : name = "AKAZE"
      · simp [h3]
      · simp [h1, h2, h3]

theorem makeMatcher_ok_iff (name : String) :
    (∃ m, makeMatcher name = .ok m) ↔ (name = "SIFT" ∨ name = "ORB" ∨ name = "AKAZE") := by
  unfold makeMatcher
  by_cases h1 : name = "SIFT"
  · simp [h1]
  · by_cases h2 : name = "ORB"
    · simp [h2]
    · by_cases h3 : name = "AKAZE"
      · simp [h3]
      · simp [h1, h2, h3]

theorem makeDetector_unknown (name : String) (n : ℤ)
    (h : ¬ (name = "SIFT" ∨ name = "ORB" ∨ name = "AKAZE")) :
    makeDetector name n = .error ("Unknown detector: " ++ name) := by
  unfold makeDetector
  push_neg at h
  simp [h.1, h.2.1, h.2.2]

theorem makeMatcher_unknown (name : String)
    (h : ¬ (name = "SIFT" ∨ name = "ORB" ∨ name = "AKAZE")) :
    makeMatcher name = .error ("Unknown detector: " ++ name) := by
  unfold makeMatcher
  push_neg at h
  simp [h.1, h.2.1, h.2.2]

/-- A run in which an image did not load ends at line 104. -/
theorem main_of_not_loaded (fl : ℚ → ℚ) (cfg : Config) (w : World)
    (h : (w.imread cfg.left_path).empty = true ∨ (w.imread cfg.right_path).empty = true) :
    main fl cfg w =
      { trace := [.imread cfg.left_path, .imread cfg.right_path,
                  .cerr "Failed to load one or both images."],
        exit := .returned 1 } := by
  rcases h with h | h <;> simp [main, h]

/-- A run whose images loaded continues with `setupStage`. -/
theorem main_of_loaded (fl : ℚ → ℚ) (cfg : Config) (w : World)
    (h1 : (w.imread cfg.left_path).empty = false)
    (h2 : (w.imread cfg.right_path).empty = false) :
    main fl cfg w = setupStage fl cfg w (w.imread cfg.left_path) (w.imread cfg.right_path)
      [.imread cfg.left_path, .imread cfg.right_path] := by
  simp [main, h1, h2]

/-- A run that reaches line 116: both images loaded, both resizes returned (or the
scale is 1), the output folder exists or its creation returned. -/
theorem main_of_setup (fl : ℚ → ℚ) (cfg : Config) (w : World) (img1 img2 : Mat)
    (h1 : (w.imread cfg.left_path).empty = false)
    (h2 : (w.imread cfg.right_path).empty = false)
    (hs1 : scaled cfg w (w.imread cfg.left_path) = .ok img1)
    (hs2 : scaled cfg w (w.imread cfg.right_path) = .ok img2)
    (hf : ensureFolder w = .ok ()) :
    main fl cfg w = factoryStage fl cfg w img1 img2
      ([.imread cfg.left_path, .imread cfg.right_path] ++ setupEvents cfg w) := by
  rw [main_of_loaded fl cfg w h1 h2]
  simp only [setupStage, hs1, hs2, hf]

theorem factoryStage_of_unknown (fl : ℚ → ℚ) (cfg : Config) (w : World) (img1 img2 : Mat)
    (tr : List Event)
    (h : ¬ (cfg.detector_name = "SIFT" ∨ cfg.detector_name = "ORB" ∨ cfg.detector_name = "AKAZE")) :
    factoryStage fl cfg w img1 img2 tr =
      { trace := tr ++ [.cerr ("Unknown detector: " ++ cfg.detector_name ++ "\n")],
        exit := .returned 1 } := by
  simp only [factoryStage, makeDetector_unknown _ _ h]

theorem factoryStage_of_ok (fl : ℚ → ℚ) (cfg : Config) (w : World) (img1 img2 : Mat)
    (tr : List Event) (detector : Detector) (matcher : Matcher)
    (hd : makeDetector cfg.detector_name 2000 = .ok detector)
    (hm : makeMatcher cfg.detector_name = .ok matcher) :
    factoryStage fl cfg w img1 img2 tr = matchStage fl cfg w img1 img2 detector matcher tr := by
  simp only [factoryStage, hd, hm]

theorem matchStage_of_few (fl : ℚ → ℚ) (cfg : Config) (w : World) (img1 img2 : Mat)
    (detector : Detector) (matcher : Matcher) (tr : List Event)
    (hfew : (matchFeatures fl cfg w img1 img2 detector matcher).good_matches.length < 4) :
    matchStage fl cfg w img1 img2 detector matcher tr =
      { trace := tr ++ [.detectAndCompute, .detectAndCompute, .knnMatch,
          .cerr "Not enough matches.\n"],
        exit := .returned 1 } := by
  simp [matchStage, hfew]

/-- A run that reached line 116, created its detector and matcher and kept fewer
than four matches ends at line 149. -/
theorem main_of_few (fl : ℚ → ℚ) (cfg : Config) (w : World) (img1 img2 : Mat)
    (detector : Detector) (matcher : Matcher)
    (h1 : (w.imread cfg.left_path).empty = false)
    (h2 : (w.imread cfg.right_path).empty = false)
    (hs1 : scaled cfg w (w.imread cfg.left_path) = .ok img1)
    (hs2 : scaled cfg w (w.imread cfg.right_path) = .ok img2)
    (hf : ensureFolder w = .ok ())
    (hd : makeDetector cfg.detector_name 2000 = .ok detector)
    (hm : makeMatcher cfg.detector_name = .ok matcher)
    (hfew : (matchFeatures fl cfg w img1 img2 detector matcher).good_matches.length < 4) :
    main fl cfg w =
      { trace := [.imread cfg.left_path, .imread cfg.right_path] ++ setupEvents cfg w
          ++ [.detectAndCompute, .detectAndCompute, .knnMatch, .cerr "Not enough matches.\n"],
        exit := .returned 1 } := by
  rw [main_of_setup fl cfg w img1 img2 h1 h2 hs1 hs2 hf,
    factoryStage_of_ok fl cfg w img1 img2 _ detector matcher hd hm,
    matchStage_of_few fl cfg w img1 img2 detector matcher _ hfew]

theorem seamAndBlend_thrower (w : World) (c : Canvas) (tr : List Event) (what : String) :
    (seamAndBlend w c tr).exit ≠ .terminate .makeMatcher what := by
  simp [seamAndBlend]

theorem warpStage_thrower (fl : ℚ → ℚ) (w : World) (img1 img2 : Mat) (H : Mat33)
    (tr : List Event) (what : String) :
    (warpStage fl w img1 img2 H tr).exit ≠ .terminate .makeMatcher what := by
  simp only [warpStage]
  split_ifs
  · exact seamAndBlend_thrower _ _ _ _
  · simp

theorem homographyStage_thrower (fl : ℚ → ℚ) (cfg : Config) (w : World) (img1 img2 : Mat)
    (m : Matched) (tr : List Event) (what : String) :
    (homographyStage fl cfg w img1 img2 m tr).exit ≠ .terminate .makeMatcher what := by
  cases hH : (estimate cfg w m).1 with
  | none => simp [homographyStage, hH]
  | some H =>
    simp only [homographyStage, hH]
    exact warpStage_thrower _ _ _ _ _ _ _

theorem matchStage_thrower (fl : ℚ → ℚ) (cfg : Config) (w : World) (img1 img2 : Mat)
    (detector : Detector) (matcher : Matcher) (tr : List Event) (what : String) :
    (matchStage fl cfg w img1 img2 detector matcher tr).exit ≠ .terminate .makeMatcher what := by
  simp only [matchStage]
  split_ifs
  · simp
  · exact homographyStage_thrower _ _ _ _ _ _ _ _

/-- The exception of `makeMatcher` never ends `factoryStage`: the matcher is created
only after the detector was, and then its name is one `makeMatcher` knows. -/
theorem factoryStage_thrower (fl : ℚ → ℚ) (cfg : Config) (w : World) (img1 img2 : Mat)
    (tr : List Event) (what : String) :
    (factoryStage fl cfg w img1 img2 tr).exit ≠ .terminate .makeMatcher what := by
  by_cases hn : cfg.detector_name = "SIFT" ∨ cfg.detector_name = "ORB"
      ∨ cfg.detector_name = "AKAZE"
  · obtain ⟨d, hd⟩ := (makeDetector_ok_iff cfg.detector_name 2000).mpr hn
    obtain ⟨m, hm⟩ := (makeMatcher_ok_iff cfg.detector_name).mpr hn
    rw [factoryStage_of_ok fl cfg w img1 img2 tr d m hd hm]
    exact matchStage_thrower _ _ _ _ _ _ _ _ _
  · rw [factoryStage_of_unknown fl cfg w img1 img2 tr hn]
    simp

theorem setupStage_thrower (fl : ℚ → ℚ) (cfg : Config) (w : World) (img1 img2 : Mat)
    (tr : List Event) (what : String) :
    (setupStage fl cfg w img1 img2 tr).exit ≠ .terminate .makeMatcher what := by
  unfold setupStage
  cases scaled cfg w img1 with
  | error e => simp
  | ok i1 =>
    cases scaled cfg w img2 with
    | error e => simp
    | ok i2 =>
      cases ensureFolder w with
      | error e => simp
      | ok u => exact factoryStage_thrower _ _ _ _ _ _ _

theorem main_thrower (fl : ℚ → ℚ) (cfg : Config) (w : World) (what : String) :
    (main fl cfg w).exit ≠ .terminate .makeMatcher what := by
  unfold main
  simp only []
  split_ifs
  · simp
  · exact setupStage_thrower _ _ _ _ _ _ _

/-- A run with an unknown detector name ends in one of five ways: an image did not
load; the first or the second resize threw; the creation of the folder threw; or
the handler of line 119 ran. -/
theorem main_of_unknown_cases (fl : ℚ → ℚ) (cfg : Config) (w : World)
    (h : ¬ (cfg.detector_name = "SIFT" ∨ cfg.detector_name = "ORB"
      ∨ cfg.detector_name = "AKAZE")) :
    main fl cfg w =
        { trace := [.imread cfg.left_path, .imread cfg.right_path,
            .cerr "Failed to load one or both images."],
          exit := .returned 1 } ∨
    (∃ what, main fl cfg w =
        { trace := [.imread cfg.left_path, .imread cfg.right_path, .resize],
          exit := .terminate .resize what }) ∨
    (∃ what, main fl cfg w =
        { trace := [.imread cfg.left_path, .imread cfg.right_path, .resize, .resize],
          exit := .terminate .resize what }) ∨
    (∃ what, main fl cfg w =
        { trace := [.imread cfg.left_path, .imread cfg.right_path] ++ resizeEvents cfg
            ++ [.create_directory],
          exit := .terminate .create_directory what }) ∨
    main fl cfg w =
        { trace := [.imread cfg.left_path, .imread cfg.right_path] ++ setupEvents cfg w
            ++ [.cerr ("Unknown detector: " ++ cfg.detector_name ++ "\n")],
          exit := .returned 1 } := by
  by_cases h1 : (w.imread cfg.left_path).empty = false
  · by_cases h2 : (w.imread cfg.right_path).empty = false
    · rw [main_of_loaded fl cfg w h1 h2]
      unfold setupStage
      cases scaled cfg w (w.imread cfg.left_path) with
      | error e => exact Or.inr (Or.inl ⟨e, by simp⟩)
      | ok i1 =>
        cases scaled cfg w (w.imread cfg.right_path) with
        | error e => exact Or.inr (Or.inr (Or.inl ⟨e, by simp⟩))
        | ok i2 =>
          cases ensureFolder w with
          | error e => exact Or.inr (Or.inr (Or.inr (Or.inl ⟨e, by simp⟩)))
          | ok u =>
            refine Or.inr (Or.inr (Or.inr (Or.inr ?_)))
            simp only [factoryStage_of_unknown fl cfg w i1 i2 _ h]
    · exact Or.inl (main_of_not_loaded fl cfg w (Or.inr (by simpa using h2)))
  · exact Or.inl (main_of_not_loaded fl cfg w (Or.inl (by simpa using h1)))

/-- None of the matches of the concrete world passes the ratio test at threshold 1/8. -/
theorem demo_no_good_matches (name : String) (scale : ℚ) (H : Option Mat33) (mask : List ℕ)
    (seam : List Mat → SeamResult) (img1 img2 : Mat) (d : Detector) (m : Matcher) :
    (matchFeatures id (demoConfig name scale (1/8)) (demoWorld H mask seam) img1 img2 d
      m).good_matches.length = 0 := by
  norm_num [matchFeatures, demoConfig, demoWorld, good_matches, ratioLoop]

theorem demo_loaded (path : String) (H : Option Mat33) (mask : List ℕ)
    (seam : List Mat → SeamResult) :
    ((demoWorld H mask seam).imread path).empty = false := by
  simp [demoWorld, demoImage, Mat.empty]

theorem demo_scaled_one (name : String) (r : ℚ) (path : String) (H : Option Mat33)
    (mask : List ℕ) (seam : List Mat → SeamResult) :
    scaled (demoConfig name 1 r) (demoWorld H mask seam) ((demoWorld H mask seam).imread path)
      = .ok demoImage := by
  simp [scaled, demoConfig, demoWorld]

theorem demo_folder (H : Option Mat33) (mask : List ℕ) (seam : List Mat → SeamResult) :
    ensureFolder (demoWorld H mask seam) = .ok () := by
  simp [ensureFolder, demoWorld]

/-- C4: fewer than four good matches end the run before the homography is
estimated.  For every run that reached the filter (both images loaded, the
resizes and the folder creation returned, detector and matcher created), if
fewer than 4 matches survive the filter, `main` writes "Not enough matches." and
returns 1; `cv::findHomography` is never called, nothing is warped or blended and
no image is written. -/
theorem few_matches_fail_before_estimation (fl : ℚ → ℚ) (cfg : Config) (w : World)
    (img1 img2 : Mat) (detector : Detector) (matcher : Matcher)
    (h1 : (w.imread cfg.left_path).empty = false)
    (h2 : (w.imread cfg.right_path).empty = false)
    (hs1 : scaled cfg w (w.imread cfg.left_path) = .ok img1)
    (hs2 : scaled cfg w (w.imread cfg.right_path) = .ok img2)
    (hf : ensureFolder w = .ok ())
    (hd : makeDetector cfg.detector_name 2000 = .ok detector)
    (hm : makeMatcher cfg.detector_name = .ok matcher)
    (hfew : (matchFeatures fl cfg w img1 img2 detector matcher).good_matches.length < 4) :
    (main fl cfg w).exit = .returned 1 ∧
    Event.cerr "Not enough matches.\n" ∈ (main fl cfg w).trace ∧
    Event.findHomography ∉ (main fl cfg w).trace ∧
    (∀ H pw ph, Event.warpPerspective H pw ph ∉ (main fl cfg w).trace) ∧
    Event.blender_blend ∉ (main fl cfg w).trace ∧
    (∀ img, Event.imwrite img ∉ (main fl cfg w).trace) ∧
    Event.imwrite_stats ∉ (main fl cfg w).trace := by
  rw [main_of_few fl cfg w img1 img2 detector matcher h1 h2 hs1 hs2 hf hd hm hfew]
  unfold setupEvents resizeEvents
  refine ⟨rfl, ?_, ?_, ?_, ?_, ?_, ?_⟩
  · simp
  · split_ifs <;> simp
  · intro H pw ph
    split_ifs <;> simp
  · split_ifs <;> simp
  · intro img
    split_ifs <;> simp
  · split_ifs <;> simp

/-- C4 at a concrete run: the concrete world with ratio threshold 1/8, under which
none of the four candidate pairs passes the ratio test. -/
theorem few_matches_fail_before_estimation_witness :
    (main id (demoConfig "SIFT" 1 (1/8)) (demoWorld (some 1) [] (fun m => .returned m))).exit = .returned 1 ∧
    Event.cerr "Not enough matches.\n" ∈ (main id (demoConfig "SIFT" 1 (1/8)) (demoWorld (some 1) [] (fun m => .returned m))).trace ∧
    Event.findHomography ∉ (main id (demoConfig "SIFT" 1 (1/8)) (demoWorld (some 1) [] (fun m => .returned m))).trace ∧
    (∀ H pw ph, Event.warpPerspective H pw ph ∉ (main id (demoConfig "SIFT" 1 (1/8)) (demoWorld (some 1) [] (fun m => .returned m))).trace) ∧
    Event.blender_blend ∉ (main id (demoConfig "SIFT" 1 (1/8)) (demoWorld (some 1) [] (fun m => .returned m))).trace ∧
    (∀ img, Event.imwrite img ∉ (main id (demoConfig "SIFT" 1 (1/8)) (demoWorld (some 1) [] (fun m => .returned m))).trace) ∧
    Event.imwrite_stats ∉ (main id (demoConfig "SIFT" 1 (1/8)) (demoWorld (some 1) [] (fun m => .returned m))).trace :=
  few_matches_fail_before_estimation id (demoConfig "SIFT" 1 (1/8)) (demoWorld (some 1) [] (fun m => .returned m)) demoImage demoImage
    Detector.SIFT Matcher.FlannBased
    (demo_loaded _ _ _ _) (demo_loaded _ _ _ _)
    (demo_scaled_one _ _ _ _ _ _) (demo_scaled_one _ _ _ _ _ _) (demo_folder _ _ _)
    (by simp [makeDetector, demoConfig]) (by simp [makeMatcher, demoConfig])
    (by rw [demo_no_good_matches]; norm_num)

/-- C7, as stated, fails: with the detector name "FOO" and scale 1/2 in the concrete
world, `makeDetector` fails and the run returns 1, but by then both images have
been read and resized. -/
theorem unknown_detector_counterexample :
    makeDetector "FOO" 2000 = .error "Unknown detector: FOO" ∧
    main id (demoConfig "FOO" (1/2) (3/4)) (demoWorld (some 1) [] (fun m => .returned m)) =
      { trace := [.imread "../../images/left.jpg", .imread "../../images/right.jpg",
                  .resize, .resize, .cerr "Unknown detector: FOO\n"],
        exit := .returned 1 } := by
  refine ⟨by simp [makeDetector], ?_⟩
  have h1 : (((demoWorld (some 1) [] (fun m => .returned m))).imread (demoConfig "FOO" (1/2) (3/4)).left_path).empty = false := demo_loaded _ _ _ _
  have h2 : (((demoWorld (some 1) [] (fun m => .returned m))).imread (demoConfig "FOO" (1/2) (3/4)).right_path).empty = false := demo_loaded _ _ _ _
  rw [main_of_loaded id _ _ h1 h2]
  norm_num [setupStage, scaled, ensureFolder, demoConfig, demoWorld, factoryStage,
    makeDetector, setupEvents, resizeEvents]
  rfl

/-- C7, amended: for every name other than exactly "SIFT", "ORB" or "AKAZE",
`makeDetector` fails with "Unknown detector: " followed by the name, and no run
with such a name detects, matches, estimates, warps or blends anything; every
such run starts by reading both images.  A run that reaches the detector
(both images loaded, the resizes and the folder creation returned) has read both
images, has resized them unless the scale is 1, has created the output folder
unless it exists, and then writes that message and returns 1. -/
theorem unknown_detector_fails_after_load (fl : ℚ → ℚ) (cfg : Config) (w : World)
    (h : ¬ (cfg.detector_name = "SIFT" ∨ cfg.detector_name = "ORB"
      ∨ cfg.detector_name = "AKAZE")) :
    makeDetector cfg.detector_name 2000
      = .error ("Unknown detector: " ++ cfg.detector_name) ∧
    [Event.imread cfg.left_path, Event.imread cfg.right_path] <+: (main fl cfg w).trace ∧
    Event.detectAndCompute ∉ (main fl cfg w).trace ∧
    Event.knnMatch ∉ (main fl cfg w).trace ∧
    Event.findHomography ∉ (main fl cfg w).trace ∧
    (∀ H pw ph, Event.warpPerspective H pw ph ∉ (main fl cfg w).trace) ∧
    Event.blender_blend ∉ (main fl cfg w).trace ∧
    (∀ img1 img2 : Mat,
      (w.imread cfg.left_path).empty = false →
      (w.imread cfg.right_path).empty = false →
      scaled cfg w (w.imread cfg.left_path) = .ok img1 →
      scaled cfg w (w.imread cfg.right_path) = .ok img2 →
      ensureFolder w = .ok () →
      main fl cfg w =
        { trace := [.imread cfg.left_path, .imread cfg.right_path]
            ++ (if cfg.scale ≠ 1 then [.resize, .resize] else [])
            ++ (if ¬ w.stored_folder_exists then [.create_directory] else [])
            ++ [.cerr ("Unknown detector: " ++ cfg.detector_name ++ "\n")],
          exit := .returned 1 }) := by
  refine ⟨makeDetector_unknown _ _ h, ?_⟩
  have hlast : ∀ img1 img2 : Mat,
      (w.imread cfg.left_path).empty = false →
      (w.imread cfg.right_path).empty = false →
      scaled cfg w (w.imread cfg.left_path) = .ok img1 →
      scaled cfg w (w.imread cfg.right_path) = .ok img2 →
      ensureFolder w = .ok () →
      main fl cfg w =
        { trace := [.imread cfg.left_path, .imread cfg.right_path]
            ++ (if cfg.scale ≠ 1 then [.resize, .resize] else [])
            ++ (if ¬ w.stored_folder_exists then [.create_directory] else [])
            ++ [.cerr ("Unknown detector: " ++ cfg.detector_name ++ "\n")],
          exit := .returned 1 } := by
    intro img1 img2 h1 h2 hs1 hs2 hf
    rw [main_of_setup fl cfg w img1 img2 h1 h2 hs1 hs2 hf,
      factoryStage_of_unknown fl cfg w img1 img2 _ h]
    simp [setupEvents, resizeEvents]
  refine ⟨?_, ?_, ?_, ?_, ?_, ?_, hlast⟩
  all_goals
    rcases main_of_unknown_cases fl cfg w h with hc | ⟨e, hc⟩ | ⟨e, hc⟩ | ⟨e, hc⟩ | hc
  all_goals rw [hc]
  all_goals try intro H pw ph
  all_goals simp only [setupEvents, resizeEvents, List.append_assoc, List.cons_append,
    List.nil_append]
  all_goals first
    | (split_ifs <;> simp)
    | simp

/-- C7, amended, at a concrete run: the lower-case name "sift" in the concrete
world at scale 1. -/
theorem unknown_detector_fails_after_load_witness :
    makeDetector (demoConfig "sift" 1 (3/4)).detector_name 2000
      = .error ("Unknown detector: " ++ (demoConfig "sift" 1 (3/4)).detector_name) ∧
    [Event.imread (demoConfig "sift" 1 (3/4)).left_path, Event.imread (demoConfig "sift" 1 (3/4)).right_path] <+: (main id (demoConfig "sift" 1 (3/4)) (demoWorld (some 1) [] (fun m => .returned m))).trace ∧
    Event.detectAndCompute ∉ (main id (demoConfig "sift" 1 (3/4)) (demoWorld (some 1) [] (fun m => .returned m))).trace ∧
    Event.knnMatch ∉ (main id (demoConfig "sift" 1 (3/4)) (demoWorld (some 1) [] (fun m => .returned m))).trace ∧
    Event.findHomography ∉ (main id (demoConfig "sift" 1 (3/4)) (demoWorld (some 1) [] (fun m => .returned m))).trace ∧
    (∀ H pw ph, Event.warpPerspective H pw ph ∉ (main id (demoConfig "sift" 1 (3/4)) (demoWorld (some 1) [] (fun m => .returned m))).trace) ∧
    Event.blender_blend ∉ (main id (demoConfig "sift" 1 (3/4)) (demoWorld (some 1) [] (fun m => .returned m))).trace ∧
    (∀ img1 img2 : Mat,
      ((demoWorld (some 1) [] (fun m => .returned m)).imread (demoConfig "sift" 1 (3/4)).left_path).empty = false →
      ((demoWorld (some 1) [] (fun m => .returned m)).imread (demoConfig "sift" 1 (3/4)).right_path).empty = false →
      scaled (demoConfig "sift" 1 (3/4)) (demoWorld (some 1) [] (fun m => .returned m)) ((demoWorld (some 1) [] (fun m => .returned m)).imread (demoConfig "sift" 1 (3/4)).left_path) = .ok img1 →
      scaled (demoConfig "sift" 1 (3/4)) (demoWorld (some 1) [] (fun m => .returned m)) ((demoWorld (some 1) [] (fun m => .returned m)).imread (demoConfig "sift" 1 (3/4)).right_path) = .ok img2 →
      ensureFolder (demoWorld (some 1) [] (fun m => .returned m)) = .ok () →
      main id (demoConfig "sift" 1 (3/4)) (demoWorld (some 1) [] (fun m => .returned m)) =
        { trace := [.imread (demoConfig "sift" 1 (3/4)).left_path, .imread (demoConfig "sift" 1 (3/4)).right_path]
            ++ (if (demoConfig "sift" 1 (3/4)).scale ≠ 1 then [.resize, .resize] else [])
            ++ (if ¬ (demoWorld (some 1) [] (fun m => .returned m)).stored_folder_exists then [.create_directory] else [])
            ++ [.cerr ("Unknown detector: " ++ (demoConfig "sift" 1 (3/4)).detector_name ++ "\n")],
          exit := .returned 1 }) :=
  unknown_detector_fails_after_load id (demoConfig "sift" 1 (3/4)) (demoWorld (some 1) [] (fun m => .returned m)) (by simp [demoConfig])

/-- C10: the two factories accept the same names.  For every name, `makeMatcher`
fails exactly when `makeDetector` fails, both succeeding exactly on "SIFT", "ORB"
and "AKAZE"; "SIFT" selects the FLANN matcher and "ORB" and "AKAZE" the
brute-force Hamming matcher; and in every run the call of `makeMatcher`, reached
only after `makeDetector` succeeded, does not throw: no run ends in
`std::terminate` on an exception of `makeMatcher`. -/
theorem factories_accept_same_names :
    (∀ (name : String) (n : ℤ),
      (∃ what, makeMatcher name = .error what) ↔ (∃ what, makeDetector name n = .error what)) ∧
    (∀ (name : String) (n : ℤ),
      (∃ d, makeDetector name n = .ok d) ↔ (name = "SIFT" ∨ name = "ORB" ∨ name = "AKAZE")) ∧
    (∀ name : String,
      (∃ m, makeMatcher name = .ok m) ↔ (name = "SIFT" ∨ name = "ORB" ∨ name = "AKAZE")) ∧
    makeMatcher "SIFT" = .ok Matcher.FlannBased ∧
    makeMatcher "ORB" = .ok (Matcher.BF NormType.NORM_HAMMING) ∧
    makeMatcher "AKAZE" = .ok (Matcher.BF NormType.NORM_HAMMING) ∧
    (∀ (name : String) (n : ℤ) (d : Detector),
      makeDetector name n = .ok d → ∃ m, makeMatcher name = .ok m) ∧
    (∀ (fl : ℚ → ℚ) (cfg : Config) (w : World) (what : String),
      (main fl cfg w).exit ≠ .terminate .makeMatcher what) := by
  refine ⟨?_, makeDetector_ok_iff, makeMatcher_ok_iff, by simp [makeMatcher],
    by simp [makeMatcher], by simp [makeMatcher], ?_, ?_⟩
  · intro name n
    by_cases hn : name = "SIFT" ∨ name = "ORB" ∨ name = "AKAZE"
    · obtain ⟨d, hd⟩ := (makeDetector_ok_iff name n).mpr hn
      obtain ⟨m, hm⟩ := (makeMatcher_ok_iff name).mpr hn
      simp [hd, hm]
    · simp [makeDetector_unknown name n hn, makeMatcher_unknown name hn]
  · intro name n d hd
    exact (makeMatcher_ok_iff name).mpr ((makeDetector_ok_iff name n).mp ⟨d, hd⟩)
  · intro fl cfg w what
    exact main_thrower fl cfg w what

end Stitch
